import Mathlib

/-!
# cpputils: serialization traits and stream serializers

A shallow embedding of `serializeable.hpp` (the compile-time capability
predicates), `serializers.hpp` (`InputSerializer` / `OutputSerializer`) and the
serializable classes of `showcase.cpp`.

Modelling conventions.

* A C++ type is a term of `CppType`; class types carry their declaration
  (`ClassDecl`: name, `sizeof`, direct base classes), so that
  `std::is_base_of_v` is computed by walking the base-class tree.
* A trivially serializeable object is modelled by its object representation
  (`Value.raw`, one `Byte` per `char`); a `std::vector` by the list of its
  elements (`Value.vec`).
* A build-time rejection is a result `Except.error _` of the embedded function
  template: `Failure.static_assert` when a `static_assert` fails,
  `Failure.ill_formed` when an expression of the instantiated overload is
  ill-formed (`item.data()` of a `std::vector<bool>`, `item.resize(size)` for
  an element type without default constructor).
* `std::istream` is the list of characters still to be extracted plus the
  `good()` flag; `std::ostream` is the list of characters written so far.
* `InputSerializer.serialize` follows the path on which every `item.resize(size)`
  returns. `Host.max_resize` gives sizes up to which it does (beyond them
  `resize` may throw `std::length_error` or `std::bad_alloc`), and `Value.fits`
  holds of the objects whose vectors stay within them. The byte count
  `sizeof(T) * size` of a vector that was allocated does not wrap.
* Sizes and default constructibility that the language leaves to the
  implementation follow libstdc++ (`std::array<T, 0>` is an empty class).
-/

namespace cpputils

/-! ## Types -/

/-- One `char` of storage. -/
abbrev Byte := Fin 256

/-- A class declaration: the two CRTP marker templates of `serializeable.hpp`
(instantiated at the type named `arg`), or any other class, given by its name,
its `sizeof` and the declarations of its direct base classes. A `user` class
declares no constructor and no default member initialiser, so that
value-initialising an object of it fills it with zero bytes. A `constructed`
class declares constructors; `default_object` gives the byte at each offset of
the object its default constructor produces, and is `none` when the class has
no default constructor. Every class keeps its implicit copy and move
constructors. -/
inductive ClassDecl where
  | trivially_serializeable (arg : String)
  | Serializeable (arg : String)
  | user (name : String) (size : Nat) (bases : List ClassDecl)
  | constructed (name : String) (size : Nat) (bases : List ClassDecl)
      (default_object : Option (Nat → Byte))

/-- The name of a class. -/
def ClassDecl.name : ClassDecl → String
  | .trivially_serializeable arg => "cpputils::trivially_serializeable<" ++ arg ++ ">"
  | .Serializeable arg => "cpputils::Serializeable<" ++ arg ++ ">"
  | .user name _ _ => name
  | .constructed name _ _ _ => name

/-- The value of `sizeof` for a class (the markers are empty structs). -/
def ClassDecl.size : ClassDecl → Nat
  | .trivially_serializeable _ => 1
  | .Serializeable _ => 1
  | .user _ size _ => size
  | .constructed _ size _ _ => size

mutual
/-- All proper base classes of a class, direct and indirect. -/
def ClassDecl.ancestors : ClassDecl → List ClassDecl
  | .user _ _ bases => ancestorsOfBases bases
  | .constructed _ _ bases _ => ancestorsOfBases bases
  | _ => []
/-- The listed base classes together with all of their own base classes. -/
def ancestorsOfBases : List ClassDecl → List ClassDecl
  | [] => []
  | b :: bs => b :: (b.ancestors ++ ancestorsOfBases bs)
end

/-- Is this class the instantiation `trivially_serializeable<name>`? -/
def ClassDecl.is_trivially_serializeable_of (name : String) : ClassDecl → Bool
  | .trivially_serializeable arg => arg == name
  | _ => false

/-- Is this class the instantiation `Serializeable<name>`? -/
def ClassDecl.is_Serializeable_of (name : String) : ClassDecl → Bool
  | .Serializeable arg => arg == name
  | _ => false

/-- Does the class have a default constructor (implicit or declared)? -/
def ClassDecl.default_constructible : ClassDecl → Bool
  | .constructed _ _ _ none => false
  | _ => true

/-- The object representation of a value-initialised object of the class. -/
def ClassDecl.default_bytes : ClassDecl → List Byte
  | .constructed _ size _ (some object) => (List.range size).map object
  | c => List.replicate c.size 0

/-- The C++ types the traits and the serializers are applied to. Allocator,
comparator and hash parameters do not influence any trait and are omitted. -/
inductive CppType where
  /-- The type `bool`, of the given `sizeof`. -/
  | bool (size : Nat)
  /-- A type with `std::is_arithmetic_v` other than `bool`, of the given `sizeof`. -/
  | arithmetic (size : Nat)
  /-- A type with `std::is_enum_v`, of the given `sizeof`. -/
  | enumeration (size : Nat)
  /-- A class type that is not one of the standard templates below. -/
  | classType (c : ClassDecl)
  /-- The built-in array `T[N]`. -/
  | array (T : CppType) (N : Nat)
  /-- The class `std::array<T, N>`. -/
  | std_array (T : CppType) (N : Nat)
  | vector (T : CppType)
  | deque (T : CppType)
  | forward_list (T : CppType)
  | list (T : CppType)
  | set (T : CppType)
  | multiset (T : CppType)
  | unordered_set (T : CppType)
  | unordered_multiset (T : CppType)
  | map (K V : CppType)
  | multimap (K V : CppType)
  | unordered_map (K V : CppType)
  | unordered_multimap (K V : CppType)
  /-- The class `std::pair<A, B>`. -/
  | pair (A B : CppType)
  /-- The class `std::tuple<Ts...>`. -/
  | tuple (Ts : List CppType)
  /-- Any other type that is not a class (pointers, unions, ...), of the given `sizeof`. -/
  | other (size : Nat)

/-- The value of `sizeof(T)`. It is consulted by the serializers for trivially
serializeable types only; for those it is the declared size of a scalar,
enumeration or class, and `N * sizeof(T)` for an array (`std::array<T, 0>` is an
empty class, of size 1). For the other standard containers, whose size is
implementation-defined, the model returns 0. -/
def sizeof : CppType → Nat
  | .bool size => size
  | .arithmetic size => size
  | .enumeration size => size
  | .classType c => c.size
  | .array T N => N * sizeof T
  | .std_array T N => if N = 0 then 1 else N * sizeof T
  | .other size => size
  | _ => 0

/-- The value of `std::is_base_of_v<trivially_serializeable<T>, T>`. -/
def is_base_of_trivially_serializeable : CppType → Bool
  | .classType c => c.ancestors.any (ClassDecl.is_trivially_serializeable_of c.name)
  | _ => false

/-- The value of `std::is_base_of_v<Serializeable<T>, T>`. -/
def is_base_of_Serializeable : CppType → Bool
  | .classType c => c.ancestors.any (ClassDecl.is_Serializeable_of c.name)
  | _ => false

/-- The value of `std::is_arithmetic_v<T>`. -/
def is_arithmetic_v : CppType → Bool
  | .bool _ => true
  | .arithmetic _ => true
  | _ => false

/-- The value of `std::is_class_v<T>`. -/
def is_class_v : CppType → Bool
  | .bool _ => false
  | .arithmetic _ => false
  | .enumeration _ => false
  | .array _ _ => false
  | .other _ => false
  | _ => true

/-- The value of `std::is_array_v<T>`. -/
def is_array_v : CppType → Bool
  | .array _ _ => true
  | _ => false

/-- The value of `std::is_default_constructible_v<T>`. -/
def is_default_constructible_v : CppType → Bool
  | .classType c => c.default_constructible
  | .array T _ => is_default_constructible_v T
  | .std_array T N => decide (N = 0) || is_default_constructible_v T
  | _ => true

/-- Is `item.data()` of a `std::vector<T>` a pointer to the contiguous elements?
Not for `bool`: `std::vector<bool>` is the packed specialisation, whose elements
are not addressable objects. -/
def has_data : CppType → Bool
  | .bool _ => false
  | _ => true

/-- Can `item.resize(size)` be instantiated for a `std::vector<T>`? It
value-initialises the new elements, which needs a default constructor, and
moves the old ones, which a built-in array does not allow. -/
def resize_builds (T : CppType) : Bool := !is_array_v T && is_default_constructible_v T

/-- The value of `std::is_enum_v<T>`. -/
def is_enum_v : CppType → Bool
  | .enumeration _ => true
  | _ => false

/-- The variable template `is_trivially_serializeable_v` with its two partial
specialisations (`T[N]` and `std::array<T, N>`). -/
def is_trivially_serializeable_v : CppType → Bool
  | .array T _ => is_trivially_serializeable_v T
  | .std_array T _ => is_trivially_serializeable_v T
  | T => is_base_of_trivially_serializeable T || is_arithmetic_v T || is_enum_v T

/-- The variable template `is_simply_serializeable_v` with its partial
specialisation for `std::vector`. -/
def is_simply_serializeable_v : CppType → Bool
  | .vector T => is_trivially_serializeable_v T
  | T => is_trivially_serializeable_v T

/-- The variable template `is_directly_serializeable_v` with its partial
specialisations for the sequence, set and map containers. -/
def is_directly_serializeable_v : CppType → Bool
  | .vector T => is_directly_serializeable_v T
  | .deque T => is_directly_serializeable_v T
  | .forward_list T => is_directly_serializeable_v T
  | .list T => is_directly_serializeable_v T
  | .set T => is_directly_serializeable_v T
  | .multiset T => is_directly_serializeable_v T
  | .unordered_set T => is_directly_serializeable_v T
  | .unordered_multiset T => is_directly_serializeable_v T
  | .map K V => is_directly_serializeable_v K && is_directly_serializeable_v V
  | .multimap K V => is_directly_serializeable_v K && is_directly_serializeable_v V
  | .unordered_map K V => is_directly_serializeable_v K && is_directly_serializeable_v V
  | .unordered_multimap K V => is_directly_serializeable_v K && is_directly_serializeable_v V
  | T => is_simply_serializeable_v T

/-- The variable template `is_serialzieable_v` (spelled as in the source). -/
def is_serialzieable_v (T : CppType) : Bool := is_simply_serializeable_v T

/-! ## Host platform and object representations -/

/-- The parameters of the host the code is built for. -/
structure Host where
  /-- The value of `sizeof(size_t)`. -/
  sizeof_size_t : Nat
  /-- The value of `sizeof(int)`. -/
  sizeof_int : Nat
  /-- Byte order of integer object representations. -/
  big_endian : Bool
  /-- For each element type `T`, a size up to which `item.resize(size)` on a
  `std::vector<T>` returns on this host; for a larger size it may throw
  `std::length_error` or `std::bad_alloc`. -/
  max_resize : CppType → Nat

/-- The `w` low-order base-256 digits of `n`, least significant first. -/
def littleEndian : Nat → Nat → List Byte
  | 0, _ => []
  | w + 1, n => ⟨n % 256, Nat.mod_lt n (by decide)⟩ :: littleEndian w (n / 256)

/-- The number whose base-256 digits, least significant first, are `bytes`. -/
def littleEndianValue : List Byte → Nat
  | [] => 0
  | b :: bs => b.val + 256 * littleEndianValue bs

/-- Object representation of a `w`-byte unsigned integer holding `n` (host byte order). -/
def Host.objectRepr (h : Host) (w n : Nat) : List Byte :=
  if h.big_endian then (littleEndian w n).reverse else littleEndian w n

/-- The unsigned integer held by an object representation (host byte order). -/
def Host.objectValue (h : Host) (bytes : List Byte) : Nat :=
  if h.big_endian then littleEndianValue bytes.reverse else littleEndianValue bytes

/-- The number of values of `size_t`, that is `SIZE_MAX + 1`. -/
def Host.size_t_modulus (h : Host) : Nat := 2 ^ (8 * h.sizeof_size_t)

/-- Object representation of the `int` value `i` (two's complement, host byte order). -/
def Host.intRepr (h : Host) (i : Int) : List Byte :=
  h.objectRepr h.sizeof_int (i % (2 ^ (8 * h.sizeof_int) : Nat)).toNat

/-- The type `size_t` of the host. -/
def Host.size_t (h : Host) : CppType := .arithmetic h.sizeof_size_t

/-- The type `int` of the host. -/
def Host.int (h : Host) : CppType := .arithmetic h.sizeof_int

/-- The type `std::vector<...std::vector<T>...>` with `n` levels of `std::vector`. -/
def nested_vector : Nat → CppType → CppType
  | 0, T => T
  | n + 1, T => .vector (nested_vector n T)

/-! ## Values and streams -/

/-- The objects the serializers are applied to: a trivially serializeable
object, given by its object representation (`sizeof(T)` bytes), or a
`std::vector`, given by its elements in index order. -/
inductive Value where
  | raw (bytes : List Byte)
  | vec (items : List Value)

/-- The object representation of a trivially serializeable object. A vector
is not such an object and contributes no bytes. -/
def Value.bytes : Value → List Byte
  | .raw bytes => bytes
  | .vec _ => []

/-- The contiguous storage `item.data()` of a vector of trivially serializeable
elements: the object representations of the elements, in index order. -/
def vector_data (members : List Value) : List Byte :=
  (members.map Value.bytes).flatten

/-- The elements held by a contiguous storage: `size` objects of `elem` bytes each. -/
def vector_elements (elem : Nat) : Nat → List Byte → List Value
  | 0, _ => []
  | size + 1, data => .raw (data.take elem) :: vector_elements elem size (data.drop elem)

/-- A value-initialised object of type `T`, as `vector::resize` appends it:
an empty vector, the object the default constructor of a class produces, an
array of such objects, or zero bytes for a scalar or enumeration. -/
def value_initialized : CppType → Value
  | .vector _ => .vec []
  | .classType c => .raw c.default_bytes
  | .array T N => .raw (List.replicate N (value_initialized T).bytes).flatten
  | .std_array T N =>
    .raw (if N = 0 then [0] else (List.replicate N (value_initialized T).bytes).flatten)
  | T => .raw (List.replicate (sizeof T) 0)

/-- The elements after `item.resize(size)` on a `std::vector<T>`, when the call
returns: the first `size` old elements, followed by value-initialised ones up
to `size`. -/
def resize (T : CppType) (members : List Value) (size : Nat) : List Value :=
  members.take size ++ List.replicate (size - members.length) (value_initialized T)

/-- Does the value inhabit the type? A raw object needs a trivially
serializeable type and exactly `sizeof(T)` bytes; a vector needs a `size()`
representable in `size_t` and elements of the element type. -/
def Value.hasType (h : Host) : CppType → Value → Bool
  | .vector T, v =>
    match v with
    | .vec members =>
      decide (members.length < h.size_t_modulus) && members.all (fun m => Value.hasType h T m)
    | .raw _ => false
  | T, v =>
    match v with
    | .raw bytes => is_trivially_serializeable_v T && decide (bytes.length = sizeof T)
    | .vec _ => false

/-- An output stream: the characters written so far. -/
structure OStream where
  data : List Byte

/-- The call `stream->write(buf, count)`: appends the first `count` characters of the buffer. -/
def OStream.write (s : OStream) (buf : List Byte) (count : Nat) : OStream :=
  ⟨s.data ++ buf.take count⟩

/-- An input stream: the characters not yet extracted, and whether `good()` holds. -/
structure IStream where
  data : List Byte
  good : Bool

/-- The call `stream->read(buf, count)` with `buf` the current contents of the
destination memory; returns the new contents. On a stream that is not good
nothing is extracted. Otherwise characters are extracted and stored until
`count` were stored or the input ends; ending early sets `failbit | eofbit`. -/
def IStream.read (s : IStream) (buf : List Byte) (count : Nat) : List Byte × IStream :=
  if !s.good then (buf, s)
  else if count ≤ s.data.length then
    (s.data.take count ++ buf.drop count, ⟨s.data.drop count, true⟩)
  else (s.data ++ buf.drop s.data.length, ⟨[], false⟩)

/-- Why an embedded call yields no result. -/
inductive Failure where
  /-- The build fails with "Can not serialize item of given type!". -/
  | static_assert
  /-- The build fails because an expression of the instantiated overload is ill-formed. -/
  | ill_formed
  /-- The value handed to the model is not an object of the C++ type (no C++ counterpart). -/
  | ill_typed
  deriving DecidableEq, Repr

/-- How the objects of a C++ type are modelled by the Lean type `α`: access to
the object representation, as `reinterpret_cast<char*>(&item)` gives it. -/
structure ObjectRepr (α : Type) where
  bytes : α → List Byte
  store : α → List Byte → α

/-- The object representation of a `Value`. -/
def Value.objectRepr : ObjectRepr Value := ⟨Value.bytes, fun _ bytes => .raw bytes⟩

/-- A `Value` has no member function `serialize`: objects with a hook are not `Value`s. -/
def Value.no_hook {σ : Type} (_ : Value) (_ : σ) : Except Failure (Value × σ) :=
  .error .ill_typed

/-- The loop `for (auto& member : item) serialize(member);`. -/
def for_each_member {σ : Type} (serialize : Value → σ → Except Failure (Value × σ)) :
    List Value → σ → Except Failure (List Value × σ)
  | [], s => .ok ([], s)
  | member :: rest, s => do
    let (member, s) ← serialize member s
    let (rest, s) ← for_each_member serialize rest s
    pure (member :: rest, s)

/-! ## OutputSerializer -/

/-- The primary template `OutputSerializer::serialize(T& item)`; `hook` is
the member function `item.serialize(*this)`. -/
def OutputSerializer.serialize_primary {α : Type} (T : CppType) (repr : ObjectRepr α)
    (hook : α → OStream → Except Failure (α × OStream)) (item : α) (s : OStream) :
    Except Failure (α × OStream) :=
  if !(is_trivially_serializeable_v T || is_base_of_Serializeable T) then .error .static_assert
  else if is_trivially_serializeable_v T then .ok (item, s.write (repr.bytes item) (sizeof T))
  else hook item s

/-- Can `OutputSerializer::serialize` be instantiated for an object of type
`T`? The `static_assert`s must hold; in the vector overload the bulk write
needs `item.data()` when the elements are trivially serializeable, and
otherwise `serialize(member)` must itself be instantiated. (For a class with a
hook, the hook is a parameter of the primary template.) -/
def OutputSerializer.serialize_builds (h : Host) : CppType → Bool
  | .vector T =>
    is_serialzieable_v T
      && (is_trivially_serializeable_v h.size_t || is_base_of_Serializeable h.size_t)
      && (if is_trivially_serializeable_v T then has_data T
          else OutputSerializer.serialize_builds h T)
  | T => is_trivially_serializeable_v T || is_base_of_Serializeable T

/-- The overload set `OutputSerializer::serialize` on `Value`s: the overload for
`std::vector<T, Allocator>&` is the more specialised one and is chosen for
vectors; every other type goes to the primary template. An overload that
cannot be instantiated yields no result, whatever the object. -/
def OutputSerializer.serialize (h : Host) : CppType → Value → OStream → Except Failure (Value × OStream)
  | .vector T, item, s =>
    if !is_serialzieable_v T then .error .static_assert
    else if !OutputSerializer.serialize_builds h (.vector T) then .error .ill_formed
    else
      match item with
      | .vec members => do
        let size := members.length
        let (_, s) ← OutputSerializer.serialize_primary h.size_t Value.objectRepr Value.no_hook
          (.raw (h.objectRepr h.sizeof_size_t size)) s
        if is_trivially_serializeable_v T then
          pure (item, s.write (vector_data members) (sizeof T * size))
        else do
          let (members, s) ← for_each_member (OutputSerializer.serialize h T) members s
          pure (.vec members, s)
      | .raw _ => .error .ill_typed
  | T, item, s => OutputSerializer.serialize_primary T Value.objectRepr Value.no_hook item s

/-! ## InputSerializer -/

/-- The primary template `InputSerializer::serialize(T& item)`; `hook` is
the member function `item.serialize(*this)`. -/
def InputSerializer.serialize_primary {α : Type} (T : CppType) (repr : ObjectRepr α)
    (hook : α → IStream → Except Failure (α × IStream)) (item : α) (s : IStream) :
    Except Failure (α × IStream) :=
  if !(is_trivially_serializeable_v T || is_base_of_Serializeable T) then .error .static_assert
  else if is_trivially_serializeable_v T then
    let (bytes, s) := s.read (repr.bytes item) (sizeof T)
    .ok (repr.store item bytes, s)
  else hook item s

/-- Can `InputSerializer::serialize` be instantiated for an object of type `T`?
As for the `OutputSerializer`, and the vector overload also needs
`item.resize(size)`. -/
def InputSerializer.serialize_builds (h : Host) : CppType → Bool
  | .vector T =>
    is_serialzieable_v T
      && (is_trivially_serializeable_v h.size_t || is_base_of_Serializeable h.size_t)
      && resize_builds T
      && (if is_trivially_serializeable_v T then has_data T
          else InputSerializer.serialize_builds h T)
  | T => is_trivially_serializeable_v T || is_base_of_Serializeable T

/-- The overload set `InputSerializer::serialize` on `Value`s: the overload for
`std::vector<T, Allocator>&` is chosen for vectors; every other type goes to
the primary template. An overload that cannot be instantiated yields no
result, whatever the object and the stream. The call `item.resize(size)` is
taken to return (see `Host.max_resize`). -/
def InputSerializer.serialize (h : Host) : CppType → Value → IStream → Except Failure (Value × IStream)
  | .vector T, item, s =>
    if !is_serialzieable_v T then .error .static_assert
    else if !InputSerializer.serialize_builds h (.vector T) then .error .ill_formed
    else
      match item with
      | .vec members => do
        let (size, s) ← InputSerializer.serialize_primary h.size_t Value.objectRepr Value.no_hook
          (.raw (h.objectRepr h.sizeof_size_t 0)) s
        let size := h.objectValue size.bytes
        let members := resize T members size
        if is_trivially_serializeable_v T then
          let (data, s) := s.read (vector_data members) (sizeof T * size)
          pure (.vec (vector_elements (sizeof T) size data), s)
        else do
          let (members, s) ← for_each_member (InputSerializer.serialize h T) members s
          pure (.vec members, s)
      | .raw _ => .error .ill_typed
  | T, item, s => InputSerializer.serialize_primary T Value.objectRepr Value.no_hook item s

/-- Do all `static_assert`s reached when `OutputSerializer::serialize` is
instantiated for an object of type `T` hold? -/
def OutputSerializer.serialize_static_asserts (h : Host) : CppType → Bool
  | .vector T =>
    is_serialzieable_v T
      && (is_trivially_serializeable_v h.size_t || is_base_of_Serializeable h.size_t)
      && (is_trivially_serializeable_v T || OutputSerializer.serialize_static_asserts h T)
  | T => is_trivially_serializeable_v T || is_base_of_Serializeable T

/-- Do all `static_assert`s reached when `InputSerializer::serialize` is
instantiated for an object of type `T` hold? -/
def InputSerializer.serialize_static_asserts (h : Host) : CppType → Bool
  | .vector T =>
    is_serialzieable_v T
      && (is_trivially_serializeable_v h.size_t || is_base_of_Serializeable h.size_t)
      && (is_trivially_serializeable_v T || InputSerializer.serialize_static_asserts h T)
  | T => is_trivially_serializeable_v T || is_base_of_Serializeable T

/-- The bytes `OutputSerializer::serialize(item)` writes for an object on its own. -/
def OutputSerializer.output (h : Host) (T : CppType) (item : Value) : List Byte :=
  match OutputSerializer.serialize h T item ⟨[]⟩ with
  | .ok (_, s) => s.data
  | .error _ => []

/-! ## The serializable classes of the showcase -/

/-- What a hook `template<class S> void serialize(S& serializer)` uses of its
serializer: the overload set `serializer.serialize(...)` on a stream state `σ`. -/
structure Serializer (σ : Type) where
  serialize : CppType → Value → σ → Except Failure (Value × σ)

/-- An `OutputSerializer` as seen by a hook. -/
def OutputSerializer.serializer (h : Host) : Serializer OStream := ⟨OutputSerializer.serialize h⟩

/-- An `InputSerializer` as seen by a hook. -/
def InputSerializer.serializer (h : Host) : Serializer IStream := ⟨InputSerializer.serialize h⟩

/-- The class `TriviallySerializeable` (three `int`s, marked with the CRTP
marker); its only constructor takes three arguments. -/
def TriviallySerializeable.decl (h : Host) : ClassDecl :=
  .constructed "TriviallySerializeable" (3 * h.sizeof_int)
    [.trivially_serializeable "TriviallySerializeable"] none

/-- The type `TriviallySerializeable`. -/
def TriviallySerializeable.type (h : Host) : CppType := .classType (TriviallySerializeable.decl h)

/-- The object `TriviallySerializeable(x, y, z)`. -/
def TriviallySerializeable.mk (h : Host) (x y z : Int) : Value :=
  .raw (h.intRepr x ++ h.intRepr y ++ h.intRepr z)

/-- An object of the class template `SerializeableBase<T>`. -/
structure SerializeableBase where
  serializedData : Value
  unserializedData : Nat
  updatedOnSerialization : Nat

/-- The class `SerializeableBase<T>`, deriving from `Serializeable<SerializeableBase<T>>`
(alignment padding is not counted in the size, which no serializer consults);
its only constructor takes an argument. -/
def SerializeableBase.decl (h : Host) (T : String) : ClassDecl :=
  .constructed ("SerializeableBase<" ++ T ++ ">") (3 * h.sizeof_int + 2 * h.sizeof_size_t)
    [.Serializeable ("SerializeableBase<" ++ T ++ ">")] none

/-- The hook `SerializeableBase<T>::serialize(S& serializer)`. -/
def SerializeableBase.serialize {σ : Type} (h : Host) (serializer : Serializer σ)
    (self : SerializeableBase) (s : σ) : Except Failure (SerializeableBase × σ) := do
  let (serializedData, s) ← serializer.serialize (TriviallySerializeable.type h) self.serializedData s
  pure ({ self with
    serializedData := serializedData
    updatedOnSerialization := (self.updatedOnSerialization + 1) % h.size_t_modulus }, s)

/-- An object of the class `SerializeableDeriv`. -/
structure SerializeableDeriv extends SerializeableBase where
  moreSerializedData : Value

/-- The class `SerializeableDeriv`, deriving from `SerializeableBase<SerializeableDeriv>`
and from `Serializeable<SerializeableDeriv>`; its only constructor takes two arguments. -/
def SerializeableDeriv.decl (h : Host) : ClassDecl :=
  .constructed "SerializeableDeriv" (3 * h.sizeof_int + 5 * h.sizeof_size_t)
    [SerializeableBase.decl h "SerializeableDeriv", .Serializeable "SerializeableDeriv"] none

/-- The hook `SerializeableDeriv::serialize(S& serializer)`: the base hook, then the vector. -/
def SerializeableDeriv.serialize {σ : Type} (h : Host) (serializer : Serializer σ)
    (self : SerializeableDeriv) (s : σ) : Except Failure (SerializeableDeriv × σ) := do
  let (base, s) ← SerializeableBase.serialize h serializer self.toSerializeableBase s
  let (moreSerializedData, s) ← serializer.serialize (.vector h.int) self.moreSerializedData s
  pure ({ toSerializeableBase := base, moreSerializedData := moreSerializedData }, s)

/-- The call `serializer.serialize(item)` of an `OutputSerializer` on an object
of type `SerializeableBase<T>`: the primary template with the class's hook. -/
def OutputSerializer.serialize_SerializeableBase (h : Host) (T : String)
    (repr : ObjectRepr SerializeableBase) (item : SerializeableBase) (s : OStream) :
    Except Failure (SerializeableBase × OStream) :=
  OutputSerializer.serialize_primary (.classType (SerializeableBase.decl h T)) repr
    (SerializeableBase.serialize h (OutputSerializer.serializer h)) item s

/-- The call `serializer.serialize(item)` of an `InputSerializer` on an object
of type `SerializeableBase<T>`. -/
def InputSerializer.serialize_SerializeableBase (h : Host) (T : String)
    (repr : ObjectRepr SerializeableBase) (item : SerializeableBase) (s : IStream) :
    Except Failure (SerializeableBase × IStream) :=
  InputSerializer.serialize_primary (.classType (SerializeableBase.decl h T)) repr
    (SerializeableBase.serialize h (InputSerializer.serializer h)) item s

/-- The call `serializer.serialize(item)` of an `OutputSerializer` on an object
of type `SerializeableDeriv`. -/
def OutputSerializer.serialize_SerializeableDeriv (h : Host)
    (repr : ObjectRepr SerializeableDeriv) (item : SerializeableDeriv) (s : OStream) :
    Except Failure (SerializeableDeriv × OStream) :=
  OutputSerializer.serialize_primary (.classType (SerializeableDeriv.decl h)) repr
    (SerializeableDeriv.serialize h (OutputSerializer.serializer h)) item s

/-- The call `serializer.serialize(item)` of an `InputSerializer` on an object
of type `SerializeableDeriv`. -/
def InputSerializer.serialize_SerializeableDeriv (h : Host)
    (repr : ObjectRepr SerializeableDeriv) (item : SerializeableDeriv) (s : IStream) :
    Except Failure (SerializeableDeriv × IStream) :=
  InputSerializer.serialize_primary (.classType (SerializeableDeriv.decl h)) repr
    (SerializeableDeriv.serialize h (InputSerializer.serializer h)) item s

/-- The object `std::vector<int>` with the given elements. -/
def int_vector (h : Host) (xs : List Int) : Value := .vec (xs.map (fun x => .raw (h.intRepr x)))

/-- Do the fields of a `SerializeableBase<T>` object hold objects of their
declared types (`TriviallySerializeable`, `size_t`, `size_t`)? -/
def SerializeableBase.wellFormed (h : Host) (self : SerializeableBase) : Bool :=
  self.serializedData.hasType h (TriviallySerializeable.type h)
    && decide (self.unserializedData < h.size_t_modulus)
    && decide (self.updatedOnSerialization < h.size_t_modulus)

/-- Do the fields of a `SerializeableDeriv` object hold objects of their
declared types (those of the base, and a `std::vector<int>`)? -/
def SerializeableDeriv.wellFormed (h : Host) (self : SerializeableDeriv) : Bool :=
  self.toSerializeableBase.wellFormed h && self.moreSerializedData.hasType h (.vector h.int)

/-- An object representation that exposes no bytes, for classes that are not
trivially serializeable: the serializers never look at their bytes. -/
def ObjectRepr.unobserved (α : Type) : ObjectRepr α := ⟨fun _ => [], fun item _ => item⟩

/-- The nested vector `{{0,1,2}, {}, {42,69}}` of `showcase_vector_serialization`. -/
def showcase_nested (h : Host) : List Value :=
  [int_vector h [0, 1, 2], int_vector h [], int_vector h [42, 69]]

/-- The elements `{3, 5, 8}` of the derived-class output of the showcase. -/
def showcase_more_output (h : Host) : List Value :=
  [3, 5, 8].map (fun x => Value.raw (h.intRepr x))

/-- The elements `{1, 4, 1, 5, 9, 2, 6, 5, 3, 5}` of the derived-class input of the showcase. -/
def showcase_more_input (h : Host) : List Value :=
  [1, 4, 1, 5, 9, 2, 6, 5, 3, 5].map (fun x => Value.raw (h.intRepr x))

/-- The object `output` of the base part of `showcase_serializeable_types`. -/
def showcase_base_output (h : Host) : SerializeableBase :=
  ⟨TriviallySerializeable.mk h 0 1 2, 1234, 0⟩

/-- The object `input` of the base part of `showcase_serializeable_types`, before the read. -/
def showcase_base_input (h : Host) : SerializeableBase :=
  ⟨TriviallySerializeable.mk h (-1) (-1) (-1), 4949, 16⟩

/-- The object `output` of the derived part of `showcase_serializeable_types`. -/
def showcase_deriv_output (h : Host) : SerializeableDeriv :=
  ⟨⟨TriviallySerializeable.mk h 1 1 2, 0, 0⟩, .vec (showcase_more_output h)⟩

/-- The object `input` of the derived part of `showcase_serializeable_types`, before the read. -/
def showcase_deriv_input (h : Host) : SerializeableDeriv :=
  ⟨⟨TriviallySerializeable.mk h 0 0 3, 0, 0⟩, .vec (showcase_more_input h)⟩

/-- A host with 8-byte `size_t`, 4-byte `int` and little-endian integers, on
which a vector whose elements occupy up to 2^30 bytes can be allocated (an
element counting for at least 32 bytes). -/
def x86_64 : Host := ⟨8, 4, false, fun T => 2 ^ 30 / max 32 (sizeof T)⟩

/-- Successive calls `serializer.serialize(item)` on one `OutputSerializer`, one
for each listed object (given with its static type), in list order. -/
def OutputSerializer.serialize_each (h : Host) :
    List (CppType × Value) → OStream → Except Failure (List Value × OStream)
  | [], s => .ok ([], s)
  | (T, item) :: rest, s => do
    let (item, s) ← OutputSerializer.serialize h T item s
    let (rest, s) ← OutputSerializer.serialize_each h rest s
    pure (item :: rest, s)

/-- Successive calls `serializer.serialize(item)` on one `InputSerializer`, one
for each listed object (given with its static type), in list order. -/
def InputSerializer.serialize_each (h : Host) :
    List (CppType × Value) → IStream → Except Failure (List Value × IStream)
  | [], s => .ok ([], s)
  | (T, item) :: rest, s => do
    let (item, s) ← InputSerializer.serialize h T item s
    let (rest, s) ← InputSerializer.serialize_each h rest s
    pure (item :: rest, s)

/-- A 12-byte class `Both` that derives from `trivially_serializeable<Both>` and
from `Serializeable<Both>`. -/
def Both.decl : ClassDecl :=
  .user "Both" 12 [.trivially_serializeable "Both", .Serializeable "Both"]

theorem littleEndian_length (w n : Nat) : (littleEndian w n).length = w := by
  induction w generalizing n with
  | zero => rfl
  | succ w ih => simp [littleEndian, ih]

theorem littleEndianValue_littleEndian (w n : Nat) :
    littleEndianValue (littleEndian w n) = n % 256 ^ w := by
  induction w generalizing n with
  | zero => simp [littleEndian, littleEndianValue, Nat.mod_one]
  | succ w ih =>
    simp only [littleEndian, littleEndianValue, ih]
    rw [pow_succ, Nat.mul_comm (256 ^ w) 256, Nat.mod_mul]

theorem objectRepr_length (h : Host) (w n : Nat) : (h.objectRepr w n).length = w := by
  unfold Host.objectRepr
  split <;> simp [littleEndian_length]

theorem objectValue_objectRepr (h : Host) (w n : Nat) :
    h.objectValue (h.objectRepr w n) = n % 256 ^ w := by
  unfold Host.objectValue Host.objectRepr
  split <;> simp [littleEndianValue_littleEndian]

theorem size_t_modulus_eq (h : Host) : h.size_t_modulus = 256 ^ h.sizeof_size_t := by
  unfold Host.size_t_modulus
  rw [pow_mul]; rfl

theorem objectValue_size (h : Host) (n : Nat) (hn : n < h.size_t_modulus) :
    h.objectValue (h.objectRepr h.sizeof_size_t n) = n := by
  rw [objectValue_objectRepr, ← size_t_modulus_eq, Nat.mod_eq_of_lt hn]

theorem read_append (a rest buf : List Byte) (count : Nat) (ha : a.length = count) :
    IStream.read ⟨a ++ rest, true⟩ buf count = (a ++ buf.drop count, ⟨rest, true⟩) := by
  subst ha
  simp [IStream.read]

theorem read_append_exact (a rest buf : List Byte) (count : Nat) (ha : a.length = count)
    (hb : buf.length ≤ count) :
    IStream.read ⟨a ++ rest, true⟩ buf count = (a, ⟨rest, true⟩) := by
  rw [read_append a rest buf count ha, List.drop_eq_nil_of_le hb, List.append_nil]

theorem not_trivially_vector (T : CppType) : is_trivially_serializeable_v (.vector T) = false := by
  simp [is_trivially_serializeable_v, is_base_of_trivially_serializeable, is_arithmetic_v, is_enum_v]

theorem trivially_size_t (h : Host) : is_trivially_serializeable_v h.size_t = true := by
  simp [Host.size_t, is_trivially_serializeable_v, is_arithmetic_v]

theorem sizeof_size_t (h : Host) : sizeof h.size_t = h.sizeof_size_t := rfl

theorem output_serialize_of_trivial (h : Host) (T : CppType) (item : Value) (s : OStream)
    (hT : is_trivially_serializeable_v T = true) :
    OutputSerializer.serialize h T item s
      = OutputSerializer.serialize_primary T Value.objectRepr Value.no_hook item s := by
  cases T <;> first | rfl | (rw [not_trivially_vector] at hT; cases hT)

theorem input_serialize_of_trivial (h : Host) (T : CppType) (item : Value) (s : IStream)
    (hT : is_trivially_serializeable_v T = true) :
    InputSerializer.serialize h T item s
      = InputSerializer.serialize_primary T Value.objectRepr Value.no_hook item s := by
  cases T <;> first | rfl | (rw [not_trivially_vector] at hT; cases hT)

theorem output_primary_trivial {α : Type} (T : CppType) (repr : ObjectRepr α)
    (hook : α → OStream → Except Failure (α × OStream)) (item : α) (s : OStream)
    (hT : is_trivially_serializeable_v T = true) :
    OutputSerializer.serialize_primary T repr hook item s
      = .ok (item, ⟨s.data ++ (repr.bytes item).take (sizeof T)⟩) := by
  simp [OutputSerializer.serialize_primary, hT, OStream.write]

theorem input_primary_trivial {α : Type} (T : CppType) (repr : ObjectRepr α)
    (hook : α → IStream → Except Failure (α × IStream)) (item : α) (s : IStream)
    (hT : is_trivially_serializeable_v T = true) :
    InputSerializer.serialize_primary T repr hook item s
      = .ok (repr.store item (s.read (repr.bytes item) (sizeof T)).1,
          (s.read (repr.bytes item) (sizeof T)).2) := by
  simp [InputSerializer.serialize_primary, hT]

theorem hasType_raw (h : Host) (T : CppType) (bytes : List Byte) :
    (Value.raw bytes).hasType h T = true ↔
      is_trivially_serializeable_v T = true ∧ bytes.length = sizeof T := by
  cases T <;> simp [Value.hasType, not_trivially_vector]

theorem hasType_vec (h : Host) (T : CppType) (members : List Value) :
    (Value.vec members).hasType h (.vector T) = true ↔
      members.length < h.size_t_modulus ∧ ∀ m ∈ members, m.hasType h T = true := by
  simp [Value.hasType]

theorem hasType_trivial (h : Host) (T : CppType) (v : Value)
    (hT : is_trivially_serializeable_v T = true) (hv : v.hasType h T = true) :
    ∃ bytes, v = .raw bytes ∧ bytes.length = sizeof T := by
  cases v with
  | raw bytes => exact ⟨bytes, rfl, ((hasType_raw h T bytes).mp hv).2⟩
  | vec items =>
    cases T <;> first | (simp [Value.hasType] at hv; done) | (rw [not_trivially_vector] at hT; cases hT)

theorem serialzieable_of_trivial (T : CppType) (hT : is_trivially_serializeable_v T = true) :
    is_serialzieable_v T = true := by
  cases T <;> first | exact hT | (rw [not_trivially_vector] at hT; cases hT)

theorem serialzieable_vector (U : CppType) :
    is_serialzieable_v (.vector U) = is_trivially_serializeable_v U := rfl

/-- The vector overload of the `OutputSerializer` builds for trivially
serializeable elements with a usable `data()`. -/
theorem output_builds_simple (h : Host) (T : CppType)
    (hT : is_trivially_serializeable_v T = true) (hd : has_data T = true) :
    OutputSerializer.serialize_builds h (.vector T) = true := by
  rw [OutputSerializer.serialize_builds]
  simp [serialzieable_of_trivial T hT, hT, hd, trivially_size_t]

/-- The vector overload of the `InputSerializer` builds for trivially
serializeable elements with a usable `data()` that `resize` can create. -/
theorem input_builds_simple (h : Host) (T : CppType)
    (hT : is_trivially_serializeable_v T = true) (hd : has_data T = true)
    (hr : resize_builds T = true) :
    InputSerializer.serialize_builds h (.vector T) = true := by
  rw [InputSerializer.serialize_builds]
  simp [serialzieable_of_trivial T hT, hT, hd, hr, trivially_size_t]

/-- When the vector overload of the `OutputSerializer` builds, the elements are
trivially serializeable with a usable `data()`, or vectors of such elements. -/
theorem output_builds_cases (h : Host) (T : CppType)
    (hb : OutputSerializer.serialize_builds h (.vector T) = true) :
    (is_trivially_serializeable_v T = true ∧ has_data T = true)
      ∨ ∃ U, T = .vector U ∧ is_trivially_serializeable_v U = true ∧ has_data U = true := by
  rw [OutputSerializer.serialize_builds] at hb
  simp only [Bool.and_eq_true] at hb
  obtain ⟨⟨hS, _⟩, hb⟩ := hb
  by_cases hT : is_trivially_serializeable_v T = true
  · rw [if_pos hT] at hb
    exact Or.inl ⟨hT, hb⟩
  · rw [if_neg hT] at hb
    cases T <;> first
      | exact absurd hS hT
      | skip
    rename_i U
    have hU : is_trivially_serializeable_v U = true := hS
    rw [OutputSerializer.serialize_builds] at hb
    simp only [Bool.and_eq_true, hU, if_true] at hb
    exact Or.inr ⟨U, rfl, hU, hb.2⟩

/-- When the vector overload of the `InputSerializer` builds, the elements are
trivially serializeable with a usable `data()`, or vectors of such elements,
and `resize` can create them. -/
theorem input_builds_cases (h : Host) (T : CppType)
    (hb : InputSerializer.serialize_builds h (.vector T) = true) :
    (is_trivially_serializeable_v T = true ∧ has_data T = true ∧ resize_builds T = true)
      ∨ ∃ U, T = .vector U ∧ is_trivially_serializeable_v U = true ∧ has_data U = true
          ∧ resize_builds U = true := by
  rw [InputSerializer.serialize_builds] at hb
  simp only [Bool.and_eq_true] at hb
  obtain ⟨⟨⟨hS, _⟩, hr⟩, hb⟩ := hb
  by_cases hT : is_trivially_serializeable_v T = true
  · rw [if_pos hT] at hb
    exact Or.inl ⟨hT, hb, hr⟩
  · rw [if_neg hT] at hb
    cases T <;> first
      | exact absurd hS hT
      | skip
    rename_i U
    have hU : is_trivially_serializeable_v U = true := hS
    rw [InputSerializer.serialize_builds] at hb
    simp only [Bool.and_eq_true, hU, if_true] at hb
    exact Or.inr ⟨U, rfl, hU, hb.2, hb.1.2⟩

theorem serialzieable_of_output_builds (h : Host) (T : CppType)
    (hb : OutputSerializer.serialize_builds h (.vector T) = true) : is_serialzieable_v T = true := by
  rw [OutputSerializer.serialize_builds] at hb
  simp only [Bool.and_eq_true] at hb
  exact hb.1.1

/-- Whatever the `InputSerializer` can be built for, the `OutputSerializer` can. -/
theorem output_builds_of_input_builds (h : Host) (T : CppType)
    (hb : InputSerializer.serialize_builds h (.vector T) = true) :
    OutputSerializer.serialize_builds h (.vector T) = true := by
  rcases input_builds_cases h T hb with ⟨hT, hd, _⟩ | ⟨U, rfl, hU, hd, _⟩
  · exact output_builds_simple h T hT hd
  · rw [OutputSerializer.serialize_builds]
    simp [serialzieable_vector, hU, not_trivially_vector, trivially_size_t,
      output_builds_simple h U hU hd]

theorem output_simple (h : Host) (T : CppType) (members : List Value) (s : OStream)
    (hT : is_trivially_serializeable_v T = true) (hd : has_data T = true) :
    OutputSerializer.serialize h (.vector T) (.vec members) s
      = .ok (.vec members, ⟨s.data ++ h.objectRepr h.sizeof_size_t members.length
          ++ (vector_data members).take (sizeof T * members.length)⟩) := by
  have h1 : is_serialzieable_v T = true := serialzieable_of_trivial T hT
  simp [OutputSerializer.serialize, h1, hT, output_builds_simple h T hT hd, output_primary_trivial,
    trivially_size_t, bind, Except.bind,
    pure, Except.pure, OStream.write, Value.objectRepr, Value.bytes, sizeof_size_t,
    List.take_of_length_le, objectRepr_length]

/-! ## Vectors of trivially serializeable elements -/

theorem serialzieable_cases (T : CppType) (hT : is_serialzieable_v T = true) :
    is_trivially_serializeable_v T = true ∨
      ∃ U, T = .vector U ∧ is_trivially_serializeable_v U = true := by
  cases T <;> first | exact Or.inl hT | exact Or.inr ⟨_, rfl, hT⟩

theorem vector_data_nil : vector_data [] = [] := rfl

theorem vector_data_cons (m : Value) (ms : List Value) :
    vector_data (m :: ms) = m.bytes ++ vector_data ms := by
  simp [vector_data]

theorem vector_data_length (k : Nat) (ms : List Value)
    (hms : ∀ m ∈ ms, ∃ b, m = Value.raw b ∧ b.length = k) :
    (vector_data ms).length = k * ms.length := by
  induction ms with
  | nil => simp [vector_data]
  | cons m ms ih =>
    obtain ⟨b, rfl, hb⟩ := hms m (List.mem_cons_self _ _)
    have := ih (fun m hm => hms m (List.mem_cons_of_mem _ hm))
    simp [vector_data_cons, Value.bytes, hb, this, Nat.mul_succ, Nat.add_comm]

theorem vector_elements_vector_data (k : Nat) (ms : List Value)
    (hms : ∀ m ∈ ms, ∃ b, m = Value.raw b ∧ b.length = k) :
    vector_elements k ms.length (vector_data ms) = ms := by
  induction ms with
  | nil => rfl
  | cons m ms ih =>
    obtain ⟨b, rfl, hb⟩ := hms m (List.mem_cons_self _ _)
    have := ih (fun m hm => hms m (List.mem_cons_of_mem _ hm))
    subst hb
    simp [vector_data_cons, Value.bytes, vector_elements, this]

theorem raw_of_hasType (h : Host) (T : CppType) (ms : List Value)
    (hT : is_trivially_serializeable_v T = true) (hms : ∀ m ∈ ms, m.hasType h T = true) :
    ∀ m ∈ ms, ∃ b, m = Value.raw b ∧ b.length = sizeof T :=
  fun m hm => hasType_trivial h T m hT (hms m hm)

theorem flatten_replicate_length (N k : Nat) (b : List Byte) (hb : b.length = k) :
    (List.replicate N b).flatten.length = N * k := by
  induction N with
  | zero => simp
  | succ N ih => simp [List.replicate_succ, ih, hb, Nat.succ_mul, Nat.add_comm]

theorem default_bytes_length (c : ClassDecl) : c.default_bytes.length = c.size := by
  cases c with
  | constructed name size bases object =>
    cases object <;> simp [ClassDecl.default_bytes, ClassDecl.size]
  | _ => simp [ClassDecl.default_bytes, ClassDecl.size]

/-- A value-initialised object of a trivially serializeable type occupies
`sizeof(T)` bytes. -/
theorem value_initialized_raw (T : CppType) (hT : is_trivially_serializeable_v T = true) :
    ∃ b, value_initialized T = .raw b ∧ b.length = sizeof T := by
  cases T with
  | vector U => rw [not_trivially_vector] at hT; cases hT
  | classType c => exact ⟨_, rfl, default_bytes_length c⟩
  | array U N =>
    rw [is_trivially_serializeable_v] at hT
    obtain ⟨b, hb, hl⟩ := value_initialized_raw U hT
    refine ⟨_, rfl, ?_⟩
    rw [hb, sizeof]
    exact flatten_replicate_length N _ b hl
  | std_array U N =>
    rw [is_trivially_serializeable_v] at hT
    obtain ⟨b, hb, hl⟩ := value_initialized_raw U hT
    refine ⟨_, rfl, ?_⟩
    rw [hb, sizeof]
    by_cases hN : N = 0
    · simp [hN]
    · simp only [hN, if_false]
      exact flatten_replicate_length N _ b hl
  | _ => exact ⟨_, rfl, by simp [sizeof]⟩
termination_by sizeOf T

theorem value_initialized_hasType (h : Host) (T : CppType) (hT : is_serialzieable_v T = true) :
    (value_initialized T).hasType h T = true := by
  rcases serialzieable_cases T hT with h1 | ⟨U, rfl, _⟩
  · obtain ⟨b, hb, hl⟩ := value_initialized_raw T h1
    rw [hb, hasType_raw]
    exact ⟨h1, hl⟩
  · simp [value_initialized, Value.hasType, Host.size_t_modulus]

theorem resize_length (T : CppType) (members : List Value) (size : Nat) :
    (resize T members size).length = size := by
  simp [resize]; omega

theorem resize_hasType (h : Host) (T : CppType) (members : List Value) (size : Nat)
    (hT : is_serialzieable_v T = true) (hms : ∀ m ∈ members, m.hasType h T = true) :
    ∀ m ∈ resize T members size, m.hasType h T = true := by
  intro m hm
  simp only [resize, List.mem_append, List.mem_replicate] at hm
  rcases hm with hm | ⟨_, rfl⟩
  · exact hms m (List.mem_of_mem_take hm)
  · exact value_initialized_hasType h T hT

theorem input_simple (h : Host) (T : CppType) (members : List Value) (s : IStream)
    (hT : is_trivially_serializeable_v T = true) (hd : has_data T = true)
    (hr : resize_builds T = true) :
    InputSerializer.serialize h (.vector T) (.vec members) s
      = .ok (.vec (vector_elements (sizeof T)
              (h.objectValue (s.read (h.objectRepr h.sizeof_size_t 0) h.sizeof_size_t).1)
              ((s.read (h.objectRepr h.sizeof_size_t 0) h.sizeof_size_t).2.read
                (vector_data (resize T members
                  (h.objectValue (s.read (h.objectRepr h.sizeof_size_t 0) h.sizeof_size_t).1)))
                (sizeof T *
                  h.objectValue (s.read (h.objectRepr h.sizeof_size_t 0) h.sizeof_size_t).1)).1),
          ((s.read (h.objectRepr h.sizeof_size_t 0) h.sizeof_size_t).2.read
                (vector_data (resize T members
                  (h.objectValue (s.read (h.objectRepr h.sizeof_size_t 0) h.sizeof_size_t).1)))
                (sizeof T *
                  h.objectValue (s.read (h.objectRepr h.sizeof_size_t 0) h.sizeof_size_t).1)).2) := by
  simp [InputSerializer.serialize, serialzieable_of_trivial T hT, hT,
    input_builds_simple h T hT hd hr, input_primary_trivial,
    trivially_size_t, bind, Except.bind, pure, Except.pure, Value.objectRepr, Value.bytes,
    sizeof_size_t]

theorem input_simple_round_trip (h : Host) (T : CppType) (ms dest : List Value) (rest : List Byte)
    (hT : is_trivially_serializeable_v T = true) (hd : has_data T = true)
    (hr : resize_builds T = true)
    (hms : (Value.vec ms).hasType h (.vector T) = true)
    (hdest : (Value.vec dest).hasType h (.vector T) = true) :
    InputSerializer.serialize h (.vector T) (.vec dest)
        ⟨h.objectRepr h.sizeof_size_t ms.length ++ vector_data ms ++ rest, true⟩
      = .ok (.vec ms, ⟨rest, true⟩) := by
  rw [hasType_vec] at hms hdest
  have hraw := raw_of_hasType h T ms hT hms.2
  have hlen := vector_data_length (sizeof T) ms hraw
  rw [input_simple h T dest _ hT hd hr, List.append_assoc,
    read_append_exact _ _ _ _ (objectRepr_length h _ _) (by simp [objectRepr_length])]
  simp only [objectValue_size h _ hms.1]
  have hbuf : (vector_data (resize T dest ms.length)).length ≤ sizeof T * ms.length := by
    rw [vector_data_length (sizeof T) _ (raw_of_hasType h T _ hT
      (resize_hasType h T dest _ (serialzieable_of_trivial T hT) hdest.2)), resize_length]
  rw [read_append_exact _ _ _ _ hlen hbuf, vector_elements_vector_data _ ms hraw]

/-! ## The vector overloads in general -/

theorem for_each_member_output (f : Value → OStream → Except Failure (Value × OStream))
    (g : Value → List Byte) (ms : List Value)
    (hf : ∀ m ∈ ms, ∀ s, f m s = .ok (m, ⟨s.data ++ g m⟩)) (s : OStream) :
    for_each_member f ms s = .ok (ms, ⟨s.data ++ (ms.map g).flatten⟩) := by
  induction ms generalizing s with
  | nil => simp [for_each_member]
  | cons m ms ih =>
    have ih := ih (fun m hm => hf m (List.mem_cons_of_mem _ hm))
    simp [for_each_member, hf m (List.mem_cons_self _ _), ih, bind, Except.bind, pure, Except.pure]

theorem for_each_member_input (f : Value → IStream → Except Failure (Value × IStream))
    (g : Value → List Byte) (P : Value → Prop) (ms : List Value)
    (hf : ∀ m ∈ ms, ∀ d rest, P d → f d ⟨g m ++ rest, true⟩ = .ok (m, ⟨rest, true⟩))
    (ds : List Value) (hlen : ds.length = ms.length) (hds : ∀ d ∈ ds, P d) (rest : List Byte) :
    for_each_member f ds ⟨(ms.map g).flatten ++ rest, true⟩ = .ok (ms, ⟨rest, true⟩) := by
  induction ms generalizing ds with
  | nil =>
    cases ds with
    | nil => simp [for_each_member]
    | cons d ds => simp at hlen
  | cons m ms ih =>
    cases ds with
    | nil => simp at hlen
    | cons d ds =>
      have ih := ih (fun m hm => hf m (List.mem_cons_of_mem _ hm)) ds (by simpa using hlen)
        (fun d hd => hds d (List.mem_cons_of_mem _ hd))
      have h1 := hf m (List.mem_cons_self _ _) d ((ms.map g).flatten ++ rest)
        (hds d (List.mem_cons_self _ _))
      simp only [List.map_cons, List.flatten_cons, List.append_assoc]
      simp [for_each_member, h1, ih, bind, Except.bind, pure, Except.pure]

theorem output_simple_hasType (h : Host) (T : CppType) (ms : List Value) (s : OStream)
    (hT : is_trivially_serializeable_v T = true) (hd : has_data T = true)
    (hms : ∀ m ∈ ms, m.hasType h T = true) :
    OutputSerializer.serialize h (.vector T) (.vec ms) s
      = .ok (.vec ms, ⟨s.data ++ h.objectRepr h.sizeof_size_t ms.length ++ vector_data ms⟩) := by
  rw [output_simple h T ms s hT hd, List.take_of_length_le]
  rw [vector_data_length (sizeof T) ms (raw_of_hasType h T ms hT hms)]

theorem output_of_ok (h : Host) (T : CppType) (item item' : Value) (bytes : List Byte)
    (hs : OutputSerializer.serialize h T item ⟨[]⟩ = .ok (item', ⟨bytes⟩)) :
    OutputSerializer.output h T item = bytes := by
  simp [OutputSerializer.output, hs]

/-- An object of a trivially serializeable type is written unchanged,
appending its object representation. -/
theorem output_trivial_object (h : Host) (T : CppType) (v : Value) (s : OStream)
    (hT : is_trivially_serializeable_v T = true) (hv : v.hasType h T = true) :
    OutputSerializer.serialize h T v s = .ok (v, ⟨s.data ++ v.bytes⟩) := by
  obtain ⟨b, rfl, hb⟩ := hasType_trivial h T v hT hv
  rw [output_serialize_of_trivial h T _ _ hT, output_primary_trivial T _ _ _ _ hT]
  simp [Value.objectRepr, Value.bytes, List.take_of_length_le, hb]

theorem output_trivial_eq (h : Host) (T : CppType) (b : List Byte)
    (hT : is_trivially_serializeable_v T = true) (hb : b.length = sizeof T) :
    OutputSerializer.output h T (.raw b) = b := by
  have := output_trivial_object h T (.raw b) ⟨[]⟩ hT ((hasType_raw h T b).mpr ⟨hT, hb⟩)
  rw [output_of_ok h T _ _ b (by simpa [Value.bytes] using this)]

/-- An element of a vector for which the vector overload builds is written
unchanged, appending its own output. -/
theorem output_element (h : Host) (T : CppType) (m : Value) (s : OStream)
    (hb : OutputSerializer.serialize_builds h (.vector T) = true) (hm : m.hasType h T = true) :
    OutputSerializer.serialize h T m s = .ok (m, ⟨s.data ++ OutputSerializer.output h T m⟩) := by
  rcases output_builds_cases h T hb with ⟨h1, _⟩ | ⟨U, rfl, hU, hd⟩
  · obtain ⟨b, rfl, hl⟩ := hasType_trivial h T m h1 hm
    rw [output_trivial_object h T _ s h1 hm, output_trivial_eq h T b h1 hl]
    rfl
  · cases m with
    | raw b => simp [Value.hasType] at hm
    | vec ms =>
      have hms := ((hasType_vec h U ms).mp hm).2
      have key := output_simple_hasType h U ms
      rw [key s hU hd hms, output_of_ok h _ _ _ _ (key ⟨[]⟩ hU hd hms)]
      simp

theorem vector_data_eq_outputs (h : Host) (T : CppType) (ms : List Value)
    (hT : is_trivially_serializeable_v T = true) (hms : ∀ m ∈ ms, m.hasType h T = true) :
    vector_data ms = (ms.map (OutputSerializer.output h T)).flatten := by
  induction ms with
  | nil => rfl
  | cons m ms ih =>
    obtain ⟨b, rfl, hb⟩ := hasType_trivial h T m hT (hms m (List.mem_cons_self _ _))
    have := ih (fun m hm => hms m (List.mem_cons_of_mem _ hm))
    simp [vector_data_cons, Value.bytes, this, output_trivial_eq h T b hT hb]

theorem output_direct (h : Host) (T : CppType) (ms : List Value) (s : OStream)
    (hb : OutputSerializer.serialize_builds h (.vector T) = true)
    (hn : is_trivially_serializeable_v T = false) :
    OutputSerializer.serialize h (.vector T) (.vec ms) s
      = (for_each_member (OutputSerializer.serialize h T) ms
          ⟨s.data ++ h.objectRepr h.sizeof_size_t ms.length⟩).map
          (fun r => (Value.vec r.1, r.2)) := by
  have hT := serialzieable_of_output_builds h T hb
  rw [OutputSerializer.serialize]
  simp only [hT, hb, hn, output_primary_trivial, trivially_size_t, bind, Except.bind, pure,
    Except.pure, Value.objectRepr, Value.bytes, sizeof_size_t, Bool.not_true, Bool.false_eq_true,
    if_false, List.take_of_length_le (le_of_eq (objectRepr_length h _ _))]
  cases for_each_member (OutputSerializer.serialize h T) ms
    ⟨s.data ++ h.objectRepr h.sizeof_size_t ms.length⟩ <;> rfl

theorem input_direct (h : Host) (T : CppType) (ds : List Value) (s : IStream)
    (hb : InputSerializer.serialize_builds h (.vector T) = true)
    (hn : is_trivially_serializeable_v T = false) :
    InputSerializer.serialize h (.vector T) (.vec ds) s
      = (for_each_member (InputSerializer.serialize h T)
          (resize T ds (h.objectValue (s.read (h.objectRepr h.sizeof_size_t 0) h.sizeof_size_t).1))
          (s.read (h.objectRepr h.sizeof_size_t 0) h.sizeof_size_t).2).map
          (fun r => (Value.vec r.1, r.2)) := by
  have hT := serialzieable_of_output_builds h T (output_builds_of_input_builds h T hb)
  rw [InputSerializer.serialize]
  simp only [hT, hb, hn, input_primary_trivial, trivially_size_t, bind, Except.bind, pure,
    Except.pure, Value.objectRepr, Value.bytes, sizeof_size_t, Bool.not_true, Bool.false_eq_true,
    if_false]
  cases for_each_member (InputSerializer.serialize h T)
    (resize T ds (h.objectValue (s.read (h.objectRepr h.sizeof_size_t 0) h.sizeof_size_t).1))
    (s.read (h.objectRepr h.sizeof_size_t 0) h.sizeof_size_t).2 <;> rfl

/-- The vector overload of `OutputSerializer::serialize`: the count, then the
outputs of the elements in index order. -/
theorem output_vector (h : Host) (T : CppType) (ms : List Value) (s : OStream)
    (hb : OutputSerializer.serialize_builds h (.vector T) = true)
    (hms : ∀ m ∈ ms, m.hasType h T = true) :
    OutputSerializer.serialize h (.vector T) (.vec ms) s
      = .ok (.vec ms, ⟨s.data ++ h.objectRepr h.sizeof_size_t ms.length
          ++ (ms.map (OutputSerializer.output h T)).flatten⟩) := by
  rcases output_builds_cases h T hb with ⟨h1, hd⟩ | ⟨U, rfl, hU, hd⟩
  · rw [output_simple_hasType h T ms s h1 hd hms, vector_data_eq_outputs h T ms h1 hms]
  · have hloop := for_each_member_output (OutputSerializer.serialize h (.vector U))
      (OutputSerializer.output h (.vector U)) ms
      (fun m hm s => output_element h _ m s hb (hms m hm))
    rw [output_direct h _ ms s hb (not_trivially_vector U), hloop]
    simp [Except.map]

/-- Reading back an object of a trivially serializeable type from its own
output followed by anything else. -/
theorem input_trivial_round_trip (h : Host) (T : CppType) (m d : Value) (rest : List Byte)
    (hT : is_trivially_serializeable_v T = true) (hm : m.hasType h T = true)
    (hd : d.hasType h T = true) :
    InputSerializer.serialize h T d ⟨OutputSerializer.output h T m ++ rest, true⟩
      = .ok (m, ⟨rest, true⟩) := by
  obtain ⟨b, rfl, hb⟩ := hasType_trivial h T m hT hm
  obtain ⟨c, rfl, hc⟩ := hasType_trivial h T d hT hd
  rw [output_trivial_eq h T b hT hb, input_serialize_of_trivial h T _ _ hT,
    input_primary_trivial T _ _ _ _ hT]
  simp [Value.objectRepr, Value.bytes, read_append_exact b rest c (sizeof T) hb (le_of_eq hc)]

/-- Reading back an element from its own output followed by anything else. -/
theorem input_element (h : Host) (T : CppType) (m d : Value) (rest : List Byte)
    (hb : InputSerializer.serialize_builds h (.vector T) = true)
    (hm : m.hasType h T = true) (hd : d.hasType h T = true) :
    InputSerializer.serialize h T d ⟨OutputSerializer.output h T m ++ rest, true⟩
      = .ok (m, ⟨rest, true⟩) := by
  rcases input_builds_cases h T hb with ⟨h1, _, _⟩ | ⟨U, rfl, hU, hdata, hr⟩
  · exact input_trivial_round_trip h T m d rest h1 hm hd
  · cases m with
    | raw b => simp [Value.hasType] at hm
    | vec ms =>
      cases d with
      | raw b => simp [Value.hasType] at hd
      | vec ds =>
        have hms := ((hasType_vec h U ms).mp hm).2
        rw [output_of_ok h _ _ _ _ (output_simple_hasType h U ms ⟨[]⟩ hU hdata hms)]
        simpa using input_simple_round_trip h U ms ds rest hU hdata hr hm hd

/-- The vector overload of `InputSerializer::serialize` on the output of a vector. -/
theorem input_vector (h : Host) (T : CppType) (ms ds : List Value) (rest : List Byte)
    (hb : InputSerializer.serialize_builds h (.vector T) = true)
    (hms : (Value.vec ms).hasType h (.vector T) = true)
    (hds : (Value.vec ds).hasType h (.vector T) = true) :
    InputSerializer.serialize h (.vector T) (.vec ds)
        ⟨h.objectRepr h.sizeof_size_t ms.length
          ++ (ms.map (OutputSerializer.output h T)).flatten ++ rest, true⟩
      = .ok (.vec ms, ⟨rest, true⟩) := by
  rcases input_builds_cases h T hb with ⟨h1, hdata, hr⟩ | ⟨U, rfl, hU, _, _⟩
  · rw [← vector_data_eq_outputs h T ms h1 ((hasType_vec h T ms).mp hms).2]
    exact input_simple_round_trip h T ms ds rest h1 hdata hr hms hds
  · rw [hasType_vec] at hms hds
    have hT : is_serialzieable_v (.vector U) = true := hU
    have hloop := for_each_member_input (InputSerializer.serialize h (.vector U))
      (OutputSerializer.output h (.vector U)) (fun d => d.hasType h (.vector U) = true) ms
      (fun m hm d rest hd => input_element h _ m d rest hb (hms.2 m hm) hd)
      (resize (.vector U) ds ms.length) (resize_length _ _ _)
      (resize_hasType h _ ds _ hT hds.2) rest
    rw [input_direct h _ ds _ hb (not_trivially_vector U), List.append_assoc,
      read_append_exact _ _ _ _ (objectRepr_length h _ _) (by simp [objectRepr_length])]
    simp only [objectValue_size h _ hms.1, hloop, Except.map]

/-- A vector for which the vector overload builds is written unchanged,
appending its own output. -/
theorem output_vector_object (h : Host) (T : CppType) (ms : List Value) (s : OStream)
    (hb : OutputSerializer.serialize_builds h (.vector T) = true)
    (hv : (Value.vec ms).hasType h (.vector T) = true) :
    OutputSerializer.serialize h (.vector T) (.vec ms) s
      = .ok (.vec ms, ⟨s.data ++ OutputSerializer.output h (.vector T) (.vec ms)⟩) := by
  have hms := ((hasType_vec h T ms).mp hv).2
  rw [output_vector h T ms s hb hms, output_of_ok h _ _ _ _ (output_vector h T ms ⟨[]⟩ hb hms)]
  simp

/-- A vector is read back from its own output followed by anything else. -/
theorem input_vector_object (h : Host) (T : CppType) (ms ds : List Value) (rest : List Byte)
    (hb : InputSerializer.serialize_builds h (.vector T) = true)
    (hv : (Value.vec ms).hasType h (.vector T) = true)
    (hd : (Value.vec ds).hasType h (.vector T) = true) :
    InputSerializer.serialize h (.vector T) (.vec ds)
        ⟨OutputSerializer.output h (.vector T) (.vec ms) ++ rest, true⟩
      = .ok (.vec ms, ⟨rest, true⟩) := by
  have hms := ((hasType_vec h T ms).mp hv).2
  rw [output_of_ok h _ _ _ _
    (output_vector h T ms ⟨[]⟩ (output_builds_of_input_builds h T hb) hms)]
  simpa using input_vector h T ms ds rest hb hv hd

/-! ## Round trips -/

/-- Round trip for the vector types both serializers can be built for: what `OutputSerializer::serialize` appends for a
vector is read back by `InputSerializer::serialize` into any destination,
leaving the stream at the bytes that follow. -/
theorem round_trip_accepted_vector (h : Host) (T : CppType) (c dest : Value) (s : OStream)
    (rest : List Byte) (hb : InputSerializer.serialize_builds h (.vector T) = true)
    (hc : c.hasType h (.vector T) = true) (hd : dest.hasType h (.vector T) = true) :
    ∃ bytes, OutputSerializer.serialize h (.vector T) c s = .ok (c, ⟨s.data ++ bytes⟩) ∧
      InputSerializer.serialize h (.vector T) dest ⟨bytes ++ rest, true⟩ = .ok (c, ⟨rest, true⟩) := by
  cases c with
  | raw b => simp [Value.hasType] at hc
  | vec ms =>
    cases dest with
    | raw b => simp [Value.hasType] at hd
    | vec ds =>
      refine ⟨h.objectRepr h.sizeof_size_t ms.length
        ++ (ms.map (OutputSerializer.output h T)).flatten, ?_, ?_⟩
      · rw [output_vector h T ms s (output_builds_of_input_builds h T hb)
          ((hasType_vec h T ms).mp hc).2, List.append_assoc]
      · exact input_vector h T ms ds rest hb hc hd

/-- Scenario A of the showcase: `{{0,1,2}, {}, {42,69}}` written and read back into an
empty `std::vector<std::vector<int>>`. -/
theorem scenario_A :
    InputSerializer.serialize x86_64 (nested_vector 2 x86_64.int) (.vec [])
        ⟨OutputSerializer.output x86_64 (nested_vector 2 x86_64.int)
          (.vec (showcase_nested x86_64)),
          true⟩
      = .ok (.vec (showcase_nested x86_64),
          ⟨[], true⟩) := by
  rfl

/-- C1 (evaluation at the failing input). The value `{{{1}}}` is a well-formed
`std::vector<std::vector<std::vector<int>>>`, built from vectors of vectors down
to `int` leaves, yet neither serializer can be instantiated for it: the
`static_assert(is_serialzieable_v<T>)` of the vector overload fails, so there
is no round trip at nesting depth three. -/
theorem nested_round_trip_rejected_at_depth_three :
    (Value.vec [.vec [int_vector x86_64 [1]]]).hasType x86_64 (nested_vector 3 x86_64.int) = true
      ∧ OutputSerializer.serialize x86_64 (nested_vector 3 x86_64.int)
          (.vec [.vec [int_vector x86_64 [1]]]) ⟨[]⟩ = .error .static_assert
      ∧ InputSerializer.serialize x86_64 (nested_vector 3 x86_64.int) (.vec []) ⟨[], true⟩
          = .error .static_assert := by
  refine ⟨by rfl, by rfl, by rfl⟩

/-- C2. For a trivially serializeable type `T` and an object `v` of it,
`OutputSerializer::serialize` appends exactly the `sizeof(T)` bytes of the
object representation of `v`, and `InputSerializer::serialize` reading those
bytes into any destination object of type `T` leaves the destination with the
object representation of `v`; the bytes after them are not touched. -/
theorem trivial_round_trip (h : Host) (T : CppType) (v dest : Value) (s : OStream)
    (rest : List Byte) (hT : is_trivially_serializeable_v T = true)
    (hv : v.hasType h T = true) (hd : dest.hasType h T = true) :
    OutputSerializer.serialize h T v s = .ok (v, ⟨s.data ++ v.bytes⟩)
      ∧ v.bytes.length = sizeof T
      ∧ InputSerializer.serialize h T dest ⟨v.bytes ++ rest, true⟩ = .ok (v, ⟨rest, true⟩) := by
  obtain ⟨b, rfl, hb⟩ := hasType_trivial h T v hT hv
  have hout := output_trivial_eq h T b hT hb
  refine ⟨output_trivial_object h T _ s hT hv, hb, ?_⟩
  · have := input_trivial_round_trip h T (.raw b) dest rest hT hv hd
    rwa [hout] at this

/-- C2 (witness): the record `{x:1, y:1, z:2}` read into `{-1, -1, -1}`. -/
theorem trivial_round_trip_witness :
    is_trivially_serializeable_v (TriviallySerializeable.type x86_64) = true
      ∧ (TriviallySerializeable.mk x86_64 1 1 2).hasType x86_64
          (TriviallySerializeable.type x86_64) = true
      ∧ (TriviallySerializeable.mk x86_64 (-1) (-1) (-1)).hasType x86_64
          (TriviallySerializeable.type x86_64) = true
      ∧ (OutputSerializer.serialize x86_64 (TriviallySerializeable.type x86_64)
            (TriviallySerializeable.mk x86_64 1 1 2) ⟨[]⟩
          = .ok (TriviallySerializeable.mk x86_64 1 1 2,
              ⟨[] ++ (TriviallySerializeable.mk x86_64 1 1 2).bytes⟩)
        ∧ (TriviallySerializeable.mk x86_64 1 1 2).bytes.length
            = sizeof (TriviallySerializeable.type x86_64)
        ∧ InputSerializer.serialize x86_64 (TriviallySerializeable.type x86_64)
            (TriviallySerializeable.mk x86_64 (-1) (-1) (-1))
            ⟨(TriviallySerializeable.mk x86_64 1 1 2).bytes ++ [], true⟩
          = .ok (TriviallySerializeable.mk x86_64 1 1 2, ⟨[], true⟩)) :=
  ⟨by decide, by decide, by decide,
    trivial_round_trip x86_64 (TriviallySerializeable.type x86_64)
      (TriviallySerializeable.mk x86_64 1 1 2) (TriviallySerializeable.mk x86_64 (-1) (-1) (-1))
      ⟨[]⟩ [] (by decide) (by decide) (by decide)⟩

/-! ## Wire format -/

/-- C5 (counterexample). `bool` is trivially serializeable and
`std::vector<bool>` passes every `static_assert`, but `OutputSerializer::serialize`
cannot be instantiated for it: `item.data()` of the packed specialisation is
not a pointer to the elements. Neither the vector `{true, false}` nor the empty
vector is written at all. -/
theorem vector_of_bool_has_no_wire_format :
    is_trivially_serializeable_v (.bool 1) = true
      ∧ (Value.vec [.raw [1], .raw [0]]).hasType x86_64 (.vector (.bool 1)) = true
      ∧ OutputSerializer.serialize_static_asserts x86_64 (.vector (.bool 1)) = true
      ∧ OutputSerializer.serialize_builds x86_64 (.vector (.bool 1)) = false
      ∧ OutputSerializer.serialize x86_64 (.vector (.bool 1)) (.vec [.raw [1], .raw [0]]) ⟨[]⟩
          = .error .ill_formed
      ∧ OutputSerializer.serialize x86_64 (.vector (.bool 1)) (.vec []) ⟨[]⟩
          = .error .ill_formed := by
  refine ⟨by decide, by decide, by decide, by decide, by rfl, by rfl⟩

/-- C5 (amended). For a `std::vector<T>` with `T` trivially serializeable and
not `bool` (so that `item.data()` points to the elements),
`OutputSerializer::serialize` appends exactly `sizeof(size_t)` bytes holding
`size()` in host byte order, then exactly `size() * sizeof(T)` bytes that are
the object representations of the elements in index order, which is what
writing the elements one by one through the primary template produces; an
empty vector contributes the count only. -/
theorem simple_wire_format (h : Host) (T : CppType) (ms : List Value) (s : OStream)
    (hT : is_trivially_serializeable_v T = true) (hdata : has_data T = true)
    (hv : (Value.vec ms).hasType h (.vector T) = true) :
    ∃ count payload,
      OutputSerializer.serialize h (.vector T) (.vec ms) s
          = .ok (.vec ms, ⟨s.data ++ count ++ payload⟩)
        ∧ count = h.objectRepr h.sizeof_size_t ms.length
        ∧ count.length = h.sizeof_size_t
        ∧ h.objectValue count = ms.length
        ∧ payload.length = ms.length * sizeof T
        ∧ payload = (ms.map Value.bytes).flatten
        ∧ (∀ m ∈ ms, ∀ s', OutputSerializer.serialize h T m s' = .ok (m, ⟨s'.data ++ m.bytes⟩))
        ∧ (ms = [] → payload = []) := by
  have hms := (hasType_vec h T ms).mp hv
  have hraw := raw_of_hasType h T ms hT hms.2
  refine ⟨h.objectRepr h.sizeof_size_t ms.length, vector_data ms,
    output_simple_hasType h T ms s hT hdata hms.2, rfl, objectRepr_length h _ _,
    objectValue_size h _ hms.1, ?_, rfl, ?_, ?_⟩
  · rw [vector_data_length (sizeof T) ms hraw, Nat.mul_comm]
  · intro m hm s'
    exact output_trivial_object h T m s' hT (hms.2 m hm)
  · rintro rfl; rfl

/-- C5 (witness): the vector `{3, 5, 8}` of `int`. -/
theorem simple_wire_format_witness :
    is_trivially_serializeable_v x86_64.int = true
      ∧ has_data x86_64.int = true
      ∧ (Value.vec (showcase_more_output x86_64)).hasType x86_64 (.vector x86_64.int) = true
      ∧ ∃ count payload,
        OutputSerializer.serialize x86_64 (.vector x86_64.int)
            (.vec (showcase_more_output x86_64)) ⟨[]⟩
          = .ok (.vec (showcase_more_output x86_64), ⟨[] ++ count ++ payload⟩)
        ∧ count = x86_64.objectRepr x86_64.sizeof_size_t
            (showcase_more_output x86_64).length
        ∧ count.length = x86_64.sizeof_size_t
        ∧ x86_64.objectValue count = (showcase_more_output x86_64).length
        ∧ payload.length
            = (showcase_more_output x86_64).length * sizeof x86_64.int
        ∧ payload = ((showcase_more_output x86_64).map Value.bytes).flatten
        ∧ (∀ m ∈ showcase_more_output x86_64, ∀ s',
            OutputSerializer.serialize x86_64 x86_64.int m s' = .ok (m, ⟨s'.data ++ m.bytes⟩))
        ∧ (showcase_more_output x86_64 = [] → payload = []) :=
  ⟨by decide, by decide, by decide,
    simple_wire_format x86_64 x86_64.int (showcase_more_output x86_64) ⟨[]⟩
      (by decide) (by decide) (by decide)⟩

/-- C6 (counterexample). `std::vector<bool>` is a serializable container that
is not trivially serializeable, and `std::vector<std::vector<bool>>` passes
every `static_assert`; but `serialize(v[i])` cannot be instantiated for the
elements, so `OutputSerializer::serialize` is not built for the vector
`{{true}, {}}` and nothing is written, neither for it nor for an element on its
own. -/
theorem vector_of_vector_of_bool_has_no_wire_format :
    is_serialzieable_v (.vector (.bool 1)) = true
      ∧ is_trivially_serializeable_v (.vector (.bool 1)) = false
      ∧ (Value.vec [.vec [.raw [1]], .vec []]).hasType x86_64 (.vector (.vector (.bool 1))) = true
      ∧ OutputSerializer.serialize_static_asserts x86_64 (.vector (.vector (.bool 1))) = true
      ∧ OutputSerializer.serialize_builds x86_64 (.vector (.vector (.bool 1))) = false
      ∧ OutputSerializer.serialize x86_64 (.vector (.vector (.bool 1)))
          (.vec [.vec [.raw [1]], .vec []]) ⟨[]⟩ = .error .ill_formed
      ∧ OutputSerializer.serialize x86_64 (.vector (.bool 1)) (.vec [.raw [1]]) ⟨[]⟩
          = .error .ill_formed := by
  refine ⟨by decide, by decide, by decide, by decide, by decide, by rfl, by rfl⟩

/-- C6 (amended). For a `std::vector<T>` whose element type `T` passes
`is_serialzieable_v` without being trivially serializeable (a serializable
container) and for whose elements `serialize(v[i])` builds (a vector of
trivially serializeable elements other than `bool`),
`OutputSerializer::serialize` appends the count `size()` first and then, in
index order, exactly the bytes that `serialize(v[i])` appends on its own. -/
theorem direct_wire_format (h : Host) (T : CppType) (ms : List Value) (s : OStream)
    (hT : is_serialzieable_v T = true) (hn : is_trivially_serializeable_v T = false)
    (hb : OutputSerializer.serialize_builds h T = true)
    (hv : (Value.vec ms).hasType h (.vector T) = true) :
    OutputSerializer.serialize h (.vector T) (.vec ms) s
        = .ok (.vec ms, ⟨s.data ++ h.objectRepr h.sizeof_size_t ms.length
            ++ (ms.map (OutputSerializer.output h T)).flatten⟩)
      ∧ h.objectValue (h.objectRepr h.sizeof_size_t ms.length) = ms.length
      ∧ (∀ m ∈ ms, ∀ s', OutputSerializer.serialize h T m s'
          = .ok (m, ⟨s'.data ++ OutputSerializer.output h T m⟩))
      ∧ ∃ U, T = .vector U ∧ is_trivially_serializeable_v U = true ∧ has_data U = true := by
  have hms := (hasType_vec h T ms).mp hv
  have hbv : OutputSerializer.serialize_builds h (.vector T) = true := by
    rw [OutputSerializer.serialize_builds]
    simp [hT, hn, hb, trivially_size_t]
  refine ⟨output_vector h T ms s hbv hms.2, objectValue_size h _ hms.1,
    fun m hm s' => output_element h T m s' hbv (hms.2 m hm), ?_⟩
  rcases output_builds_cases h T hbv with ⟨h1, _⟩ | h2
  · rw [h1] at hn; cases hn
  · exact h2

/-- C6 (witness): the nested vector `{{0,1,2}, {}, {42,69}}` of the showcase. -/
theorem direct_wire_format_witness :
    is_serialzieable_v (.vector x86_64.int) = true
      ∧ is_trivially_serializeable_v (.vector x86_64.int) = false
      ∧ OutputSerializer.serialize_builds x86_64 (.vector x86_64.int) = true
      ∧ (Value.vec (showcase_nested x86_64)).hasType x86_64 (.vector (.vector x86_64.int)) = true
      ∧ (OutputSerializer.serialize x86_64 (.vector (.vector x86_64.int))
            (.vec (showcase_nested x86_64))
            ⟨[]⟩
          = .ok (.vec (showcase_nested x86_64),
            ⟨[] ++ x86_64.objectRepr x86_64.sizeof_size_t
                (showcase_nested x86_64).length
              ++ ((showcase_nested x86_64).map
                    (OutputSerializer.output x86_64 (.vector x86_64.int))).flatten⟩)
        ∧ x86_64.objectValue (x86_64.objectRepr x86_64.sizeof_size_t
              (showcase_nested x86_64).length)
            = (showcase_nested x86_64).length
        ∧ (∀ m ∈ (showcase_nested x86_64),
            ∀ s', OutputSerializer.serialize x86_64 (.vector x86_64.int) m s'
              = .ok (m, ⟨s'.data ++ OutputSerializer.output x86_64 (.vector x86_64.int) m⟩))
        ∧ ∃ U, CppType.vector x86_64.int = .vector U ∧ is_trivially_serializeable_v U = true
            ∧ has_data U = true) :=
  ⟨by decide, by decide, by decide, by decide,
    direct_wire_format x86_64 (.vector x86_64.int)
      (showcase_nested x86_64) ⟨[]⟩
      (by decide) (by decide) (by decide) (by decide)⟩

theorem trivially_TriviallySerializeable (h : Host) :
    is_trivially_serializeable_v (TriviallySerializeable.type h) = true := by
  simp [TriviallySerializeable.type, TriviallySerializeable.decl, is_trivially_serializeable_v,
    is_base_of_trivially_serializeable, ClassDecl.ancestors, ancestorsOfBases, ClassDecl.name,
    ClassDecl.is_trivially_serializeable_of]

theorem SerializeableBase_not_trivially (h : Host) (T : String) :
    is_trivially_serializeable_v (.classType (SerializeableBase.decl h T)) = false := by
  simp [SerializeableBase.decl, is_trivially_serializeable_v, is_base_of_trivially_serializeable,
    ClassDecl.ancestors, ancestorsOfBases, ClassDecl.is_trivially_serializeable_of,
    is_arithmetic_v, is_enum_v]

theorem SerializeableBase_is_base_of (h : Host) (T : String) :
    is_base_of_Serializeable (.classType (SerializeableBase.decl h T)) = true := by
  simp [SerializeableBase.decl, is_base_of_Serializeable, ClassDecl.ancestors, ancestorsOfBases,
    ClassDecl.name, ClassDecl.is_Serializeable_of]

theorem SerializeableDeriv_not_trivially (h : Host) :
    is_trivially_serializeable_v (.classType (SerializeableDeriv.decl h)) = false := by
  simp [SerializeableDeriv.decl, SerializeableBase.decl, is_trivially_serializeable_v,
    is_base_of_trivially_serializeable, ClassDecl.ancestors, ancestorsOfBases,
    ClassDecl.is_trivially_serializeable_of, is_arithmetic_v, is_enum_v]

theorem SerializeableDeriv_is_base_of (h : Host) :
    is_base_of_Serializeable (.classType (SerializeableDeriv.decl h)) = true := by
  simp [SerializeableDeriv.decl, SerializeableBase.decl, is_base_of_Serializeable,
    ClassDecl.ancestors, ancestorsOfBases, ClassDecl.name, ClassDecl.is_Serializeable_of]

theorem output_primary_hook {α : Type} (T : CppType) (repr : ObjectRepr α)
    (hook : α → OStream → Except Failure (α × OStream)) (item : α) (s : OStream)
    (hT : is_trivially_serializeable_v T = false) (hS : is_base_of_Serializeable T = true) :
    OutputSerializer.serialize_primary T repr hook item s = hook item s := by
  simp [OutputSerializer.serialize_primary, hT, hS]

theorem input_primary_hook {α : Type} (T : CppType) (repr : ObjectRepr α)
    (hook : α → IStream → Except Failure (α × IStream)) (item : α) (s : IStream)
    (hT : is_trivially_serializeable_v T = false) (hS : is_base_of_Serializeable T = true) :
    InputSerializer.serialize_primary T repr hook item s = hook item s := by
  simp [InputSerializer.serialize_primary, hT, hS]

theorem input_trivial_object (h : Host) (T : CppType) (d : Value) (s : IStream)
    (hT : is_trivially_serializeable_v T = true) (hd : d.hasType h T = true) :
    InputSerializer.serialize h T d s
      = .ok (.raw (s.read d.bytes (sizeof T)).1, (s.read d.bytes (sizeof T)).2) := by
  obtain ⟨b, rfl, _⟩ := hasType_trivial h T d hT hd
  rw [input_serialize_of_trivial h T _ _ hT, input_primary_trivial T _ _ _ _ hT]
  rfl

theorem wellFormed_base (h : Host) (b : SerializeableBase) (hb : b.wellFormed h = true) :
    b.serializedData.hasType h (TriviallySerializeable.type h) = true := by
  simp [SerializeableBase.wellFormed] at hb
  exact hb.1.1

theorem wellFormed_deriv (h : Host) (d : SerializeableDeriv) (hd : d.wellFormed h = true) :
    d.toSerializeableBase.wellFormed h = true
      ∧ ∃ ms, d.moreSerializedData = .vec ms ∧ (Value.vec ms).hasType h (.vector h.int) = true := by
  simp only [SerializeableDeriv.wellFormed, Bool.and_eq_true] at hd
  refine ⟨hd.1, ?_⟩
  cases hm : d.moreSerializedData with
  | raw b => rw [hm] at hd; simp [Value.hasType] at hd
  | vec ms => rw [hm] at hd; exact ⟨ms, rfl, hd.2⟩

theorem trivially_int (h : Host) : is_trivially_serializeable_v h.int = true := by
  simp [Host.int, is_trivially_serializeable_v, is_arithmetic_v]

/-- The base hook under an `OutputSerializer`. -/
theorem SerializeableBase_serialize_output (h : Host) (self : SerializeableBase) (s : OStream)
    (hw : self.wellFormed h = true) :
    SerializeableBase.serialize h (OutputSerializer.serializer h) self s
      = .ok ({ self with
            updatedOnSerialization := (self.updatedOnSerialization + 1) % h.size_t_modulus },
          ⟨s.data ++ self.serializedData.bytes⟩) := by
  simp [SerializeableBase.serialize, OutputSerializer.serializer,
    output_trivial_object h _ _ s (trivially_TriviallySerializeable h) (wellFormed_base h self hw),
    bind, Except.bind, pure, Except.pure]

/-- The base hook under an `InputSerializer`, on any stream. -/
theorem SerializeableBase_serialize_input (h : Host) (self : SerializeableBase) (s : IStream)
    (hw : self.wellFormed h = true) :
    SerializeableBase.serialize h (InputSerializer.serializer h) self s
      = .ok ({ self with
            serializedData :=
              .raw (s.read self.serializedData.bytes (sizeof (TriviallySerializeable.type h))).1
            updatedOnSerialization := (self.updatedOnSerialization + 1) % h.size_t_modulus },
          (s.read self.serializedData.bytes (sizeof (TriviallySerializeable.type h))).2) := by
  simp [SerializeableBase.serialize, InputSerializer.serializer,
    input_trivial_object h _ _ s (trivially_TriviallySerializeable h) (wellFormed_base h self hw),
    bind, Except.bind, pure, Except.pure]

/-- The derived hook under an `OutputSerializer`. -/
theorem SerializeableDeriv_serialize_output (h : Host) (self : SerializeableDeriv) (s : OStream)
    (hw : self.wellFormed h = true) :
    SerializeableDeriv.serialize h (OutputSerializer.serializer h) self s
      = .ok ({ self with
            updatedOnSerialization := (self.updatedOnSerialization + 1) % h.size_t_modulus },
          ⟨s.data ++ self.serializedData.bytes
            ++ OutputSerializer.output h (.vector h.int) self.moreSerializedData⟩) := by
  obtain ⟨hb, ms, hms, hty⟩ := wellFormed_deriv h self hw
  have h1 := output_vector_object h h.int ms ⟨s.data ++ self.serializedData.bytes⟩
    (output_builds_simple h h.int (trivially_int h) rfl) hty
  simp only [SerializeableDeriv.serialize, SerializeableBase_serialize_output h _ s hb, bind,
    Except.bind, pure, Except.pure, hms]
  simp only [OutputSerializer.serializer, h1]

/-- The derived hook under an `InputSerializer`, on any stream: always returns. -/
theorem SerializeableDeriv_serialize_input (h : Host) (self : SerializeableDeriv) (s : IStream)
    (hw : self.wellFormed h = true) :
    ∃ data more s', SerializeableDeriv.serialize h (InputSerializer.serializer h) self s
      = .ok ({ self with
            serializedData := data
            updatedOnSerialization := (self.updatedOnSerialization + 1) % h.size_t_modulus
            moreSerializedData := more }, s') := by
  obtain ⟨hb, ms, hms, hty⟩ := wellFormed_deriv h self hw
  simp only [SerializeableDeriv.serialize, SerializeableBase_serialize_input h _ s hb, bind,
    Except.bind, pure, Except.pure, hms]
  simp only [InputSerializer.serializer, input_simple h h.int ms _ (trivially_int h) rfl rfl]
  exact ⟨_, _, _, rfl⟩

/-- The base hook under an `InputSerializer`, on what the output hook wrote. -/
theorem SerializeableBase_serialize_round_trip (h : Host) (src dst : SerializeableBase)
    (rest : List Byte) (hsrc : src.wellFormed h = true) (hdst : dst.wellFormed h = true) :
    SerializeableBase.serialize h (InputSerializer.serializer h) dst
        ⟨src.serializedData.bytes ++ rest, true⟩
      = .ok ({ dst with
            serializedData := src.serializedData
            updatedOnSerialization := (dst.updatedOnSerialization + 1) % h.size_t_modulus },
          ⟨rest, true⟩) := by
  have hT := trivially_TriviallySerializeable h
  have hs := wellFormed_base h src hsrc
  have hd := wellFormed_base h dst hdst
  obtain ⟨b, hb, hbl⟩ := hasType_trivial h _ _ hT hs
  obtain ⟨c, hc, hcl⟩ := hasType_trivial h _ _ hT hd
  rw [SerializeableBase_serialize_input h dst _ hdst, hb, hc]
  simp only [Value.bytes, read_append_exact b rest c _ hbl (le_of_eq hcl)]

/-- The derived hook under an `InputSerializer`, on what the output hook wrote. -/
theorem SerializeableDeriv_serialize_round_trip (h : Host) (src dst : SerializeableDeriv)
    (rest : List Byte) (hsrc : src.wellFormed h = true) (hdst : dst.wellFormed h = true) :
    SerializeableDeriv.serialize h (InputSerializer.serializer h) dst
        ⟨src.serializedData.bytes
          ++ OutputSerializer.output h (.vector h.int) src.moreSerializedData ++ rest, true⟩
      = .ok ({ dst with
            serializedData := src.serializedData
            updatedOnSerialization := (dst.updatedOnSerialization + 1) % h.size_t_modulus
            moreSerializedData := src.moreSerializedData },
          ⟨rest, true⟩) := by
  obtain ⟨hsb, ms, hms, hmty⟩ := wellFormed_deriv h src hsrc
  obtain ⟨hdb, ds, hds, hdty⟩ := wellFormed_deriv h dst hdst
  have h1 := input_vector_object h h.int ms ds rest
    (input_builds_simple h h.int (trivially_int h) rfl rfl) hmty hdty
  simp only [SerializeableDeriv.serialize, List.append_assoc,
    SerializeableBase_serialize_round_trip h _ _ _ hsb hdb, bind, Except.bind, pure, Except.pure,
    hms, hds]
  simp only [InputSerializer.serializer, h1]

/-- C3. Writing a `SerializeableBase<T>` or `SerializeableDeriv` source with an
`OutputSerializer` and reading the bytes into any destination of the same class
with an `InputSerializer` makes the fields the hook serializes equal to the
source's (`serializedData`, and `moreSerializedData` for the derived class),
whatever the destination held; `unserializedData`, which the hook never
serializes, keeps the destination's value. -/
theorem custom_hook_field_scoping (h : Host) (T : String)
    (reprB : ObjectRepr SerializeableBase) (reprD : ObjectRepr SerializeableDeriv)
    (src dst : SerializeableBase) (srcD dstD : SerializeableDeriv)
    (hsrc : src.wellFormed h = true) (hdst : dst.wellFormed h = true)
    (hsrcD : srcD.wellFormed h = true) (hdstD : dstD.wellFormed h = true) :
    (∃ src' bytes dst',
      OutputSerializer.serialize_SerializeableBase h T reprB src ⟨[]⟩ = .ok (src', ⟨bytes⟩)
        ∧ InputSerializer.serialize_SerializeableBase h T reprB dst ⟨bytes, true⟩
            = .ok (dst', ⟨[], true⟩)
        ∧ dst'.serializedData = src.serializedData
        ∧ dst'.unserializedData = dst.unserializedData)
    ∧ (∃ src' bytes dst',
      OutputSerializer.serialize_SerializeableDeriv h reprD srcD ⟨[]⟩ = .ok (src', ⟨bytes⟩)
        ∧ InputSerializer.serialize_SerializeableDeriv h reprD dstD ⟨bytes, true⟩
            = .ok (dst', ⟨[], true⟩)
        ∧ dst'.serializedData = srcD.serializedData
        ∧ dst'.moreSerializedData = srcD.moreSerializedData
        ∧ dst'.unserializedData = dstD.unserializedData) := by
  have hBo : OutputSerializer.serialize_SerializeableBase h T reprB src ⟨[]⟩
      = .ok ({ src with
            updatedOnSerialization := (src.updatedOnSerialization + 1) % h.size_t_modulus },
          ⟨src.serializedData.bytes⟩) := by
    rw [OutputSerializer.serialize_SerializeableBase,
      output_primary_hook _ _ _ _ _ (SerializeableBase_not_trivially h T)
        (SerializeableBase_is_base_of h T),
      SerializeableBase_serialize_output h src _ hsrc]
    rfl
  have hBi : InputSerializer.serialize_SerializeableBase h T reprB dst
        ⟨src.serializedData.bytes, true⟩
      = .ok ({ dst with
            serializedData := src.serializedData
            updatedOnSerialization := (dst.updatedOnSerialization + 1) % h.size_t_modulus },
          ⟨[], true⟩) := by
    have := SerializeableBase_serialize_round_trip h src dst [] hsrc hdst
    rw [InputSerializer.serialize_SerializeableBase,
      input_primary_hook _ _ _ _ _ (SerializeableBase_not_trivially h T)
        (SerializeableBase_is_base_of h T)]
    simpa using this
  have hDo : OutputSerializer.serialize_SerializeableDeriv h reprD srcD ⟨[]⟩
      = .ok ({ srcD with
            updatedOnSerialization := (srcD.updatedOnSerialization + 1) % h.size_t_modulus },
          ⟨srcD.serializedData.bytes
            ++ OutputSerializer.output h (.vector h.int) srcD.moreSerializedData⟩) := by
    rw [OutputSerializer.serialize_SerializeableDeriv,
      output_primary_hook _ _ _ _ _ (SerializeableDeriv_not_trivially h)
        (SerializeableDeriv_is_base_of h),
      SerializeableDeriv_serialize_output h srcD _ hsrcD]
    rfl
  have hDi : InputSerializer.serialize_SerializeableDeriv h reprD dstD
        ⟨srcD.serializedData.bytes
          ++ OutputSerializer.output h (.vector h.int) srcD.moreSerializedData, true⟩
      = .ok ({ dstD with
            serializedData := srcD.serializedData
            updatedOnSerialization := (dstD.updatedOnSerialization + 1) % h.size_t_modulus
            moreSerializedData := srcD.moreSerializedData },
          ⟨[], true⟩) := by
    have := SerializeableDeriv_serialize_round_trip h srcD dstD [] hsrcD hdstD
    rw [InputSerializer.serialize_SerializeableDeriv,
      input_primary_hook _ _ _ _ _ (SerializeableDeriv_not_trivially h)
        (SerializeableDeriv_is_base_of h)]
    simpa using this
  exact ⟨⟨_, _, _, hBo, hBi, rfl, rfl⟩, ⟨_, _, _, hDo, hDi, rfl, rfl, rfl⟩⟩

/-- C3 (witness): the two round trips of `showcase_serializeable_types`; the derived
destination holds 10 elements before the read and `{3, 5, 8}` after it. -/
theorem custom_hook_field_scoping_witness :
    (showcase_base_output x86_64).wellFormed x86_64 = true
      ∧ (showcase_base_input x86_64).wellFormed x86_64 = true
      ∧ (showcase_deriv_output x86_64).wellFormed x86_64 = true
      ∧ (showcase_deriv_input x86_64).wellFormed x86_64 = true
      ∧ ((∃ src' bytes dst',
          OutputSerializer.serialize_SerializeableBase x86_64 "void" (ObjectRepr.unobserved _)
              (showcase_base_output x86_64) ⟨[]⟩ = .ok (src', ⟨bytes⟩)
            ∧ InputSerializer.serialize_SerializeableBase x86_64 "void" (ObjectRepr.unobserved _)
                (showcase_base_input x86_64) ⟨bytes, true⟩ = .ok (dst', ⟨[], true⟩)
            ∧ dst'.serializedData = (showcase_base_output x86_64).serializedData
            ∧ dst'.unserializedData = (showcase_base_input x86_64).unserializedData)
        ∧ (∃ src' bytes dst',
          OutputSerializer.serialize_SerializeableDeriv x86_64 (ObjectRepr.unobserved _)
              (showcase_deriv_output x86_64) ⟨[]⟩ = .ok (src', ⟨bytes⟩)
            ∧ InputSerializer.serialize_SerializeableDeriv x86_64 (ObjectRepr.unobserved _)
                (showcase_deriv_input x86_64) ⟨bytes, true⟩ = .ok (dst', ⟨[], true⟩)
            ∧ dst'.serializedData = (showcase_deriv_output x86_64).serializedData
            ∧ dst'.moreSerializedData = (showcase_deriv_output x86_64).moreSerializedData
            ∧ dst'.unserializedData = (showcase_deriv_input x86_64).unserializedData)) :=
  ⟨by decide, by decide, by decide, by decide,
    custom_hook_field_scoping x86_64 "void" (ObjectRepr.unobserved _) (ObjectRepr.unobserved _)
      (showcase_base_output x86_64) (showcase_base_input x86_64)
      (showcase_deriv_output x86_64) (showcase_deriv_input x86_64)
      (by decide) (by decide) (by decide) (by decide)⟩

/-- C4 (counterexample). A `SerializeableBase<void>` source whose counter is
`SIZE_MAX` is a well-formed object; after one `OutputSerializer::serialize` call
its counter is 0, not one greater than before: `++` on a `size_t` wraps. -/
theorem hook_counter_wraps_at_SIZE_MAX :
    (SerializeableBase.mk (TriviallySerializeable.mk x86_64 1 1 2) 0
        (2 ^ 64 - 1)).wellFormed x86_64 = true
      ∧ OutputSerializer.serialize_SerializeableBase x86_64 "void" (ObjectRepr.unobserved _)
          (SerializeableBase.mk (TriviallySerializeable.mk x86_64 1 1 2) 0 (2 ^ 64 - 1)) ⟨[]⟩
        = .ok (SerializeableBase.mk (TriviallySerializeable.mk x86_64 1 1 2) 0 0,
            ⟨(TriviallySerializeable.mk x86_64 1 1 2).bytes⟩)
      ∧ (0 : Nat) ≠ (2 ^ 64 - 1) + 1 := by
  refine ⟨by decide, by rfl, by decide⟩

/-- C4 (amended). One `OutputSerializer::serialize` call on a `SerializeableBase<T>`
or `SerializeableDeriv` source returns with the source's counter equal to its
previous value plus one modulo `SIZE_MAX + 1`, and one `InputSerializer::serialize`
call, on any stream, returns with the destination's counter equal to the
destination's own previous value plus one modulo `SIZE_MAX + 1`; no counter
depends on the other object. -/
theorem hook_runs_once_per_call (h : Host) (T : String)
    (reprB : ObjectRepr SerializeableBase) (reprD : ObjectRepr SerializeableDeriv)
    (src dst : SerializeableBase) (srcD dstD : SerializeableDeriv) (sO : OStream) (sI : IStream)
    (hsrc : src.wellFormed h = true) (hdst : dst.wellFormed h = true)
    (hsrcD : srcD.wellFormed h = true) (hdstD : dstD.wellFormed h = true) :
    (∃ src' sO', OutputSerializer.serialize_SerializeableBase h T reprB src sO = .ok (src', sO')
        ∧ src'.updatedOnSerialization = (src.updatedOnSerialization + 1) % h.size_t_modulus)
    ∧ (∃ dst' sI', InputSerializer.serialize_SerializeableBase h T reprB dst sI = .ok (dst', sI')
        ∧ dst'.updatedOnSerialization = (dst.updatedOnSerialization + 1) % h.size_t_modulus)
    ∧ (∃ src' sO', OutputSerializer.serialize_SerializeableDeriv h reprD srcD sO = .ok (src', sO')
        ∧ src'.updatedOnSerialization = (srcD.updatedOnSerialization + 1) % h.size_t_modulus)
    ∧ (∃ dst' sI', InputSerializer.serialize_SerializeableDeriv h reprD dstD sI = .ok (dst', sI')
        ∧ dst'.updatedOnSerialization
            = (dstD.updatedOnSerialization + 1) % h.size_t_modulus) := by
  have hBo := SerializeableBase_serialize_output h src sO hsrc
  have hBi := SerializeableBase_serialize_input h dst sI hdst
  have hDo := SerializeableDeriv_serialize_output h srcD sO hsrcD
  obtain ⟨data, more, s', hDi⟩ := SerializeableDeriv_serialize_input h dstD sI hdstD
  rw [OutputSerializer.serialize_SerializeableBase, InputSerializer.serialize_SerializeableBase,
    OutputSerializer.serialize_SerializeableDeriv, InputSerializer.serialize_SerializeableDeriv,
    output_primary_hook _ _ _ _ _ (SerializeableBase_not_trivially h T)
      (SerializeableBase_is_base_of h T),
    input_primary_hook _ _ _ _ _ (SerializeableBase_not_trivially h T)
      (SerializeableBase_is_base_of h T),
    output_primary_hook _ _ _ _ _ (SerializeableDeriv_not_trivially h)
      (SerializeableDeriv_is_base_of h),
    input_primary_hook _ _ _ _ _ (SerializeableDeriv_not_trivially h)
      (SerializeableDeriv_is_base_of h)]
  exact ⟨⟨_, _, hBo, rfl⟩, ⟨_, _, hBi, rfl⟩, ⟨_, _, hDo, rfl⟩, ⟨_, _, hDi, rfl⟩⟩

/-- C4 (witness): the objects of the showcase; the base source's counter goes from 0
to 1 and the base destination's from 16 to 17. -/
theorem hook_runs_once_per_call_witness :
    (showcase_base_output x86_64).wellFormed x86_64 = true
      ∧ (showcase_base_input x86_64).wellFormed x86_64 = true
      ∧ (showcase_deriv_output x86_64).wellFormed x86_64 = true
      ∧ (showcase_deriv_input x86_64).wellFormed x86_64 = true
      ∧ (0 + 1) % x86_64.size_t_modulus = 1 ∧ (16 + 1) % x86_64.size_t_modulus = 17
      ∧ ((∃ src' sO', OutputSerializer.serialize_SerializeableBase x86_64 "void"
              (ObjectRepr.unobserved _) (showcase_base_output x86_64) ⟨[]⟩ = .ok (src', sO')
            ∧ src'.updatedOnSerialization
                = ((showcase_base_output x86_64).updatedOnSerialization + 1)
                    % x86_64.size_t_modulus)
        ∧ (∃ dst' sI', InputSerializer.serialize_SerializeableBase x86_64 "void"
              (ObjectRepr.unobserved _) (showcase_base_input x86_64)
              ⟨(showcase_base_output x86_64).serializedData.bytes, true⟩ = .ok (dst', sI')
            ∧ dst'.updatedOnSerialization
                = ((showcase_base_input x86_64).updatedOnSerialization + 1)
                    % x86_64.size_t_modulus)
        ∧ (∃ src' sO', OutputSerializer.serialize_SerializeableDeriv x86_64
              (ObjectRepr.unobserved _) (showcase_deriv_output x86_64) ⟨[]⟩ = .ok (src', sO')
            ∧ src'.updatedOnSerialization
                = ((showcase_deriv_output x86_64).updatedOnSerialization + 1)
                    % x86_64.size_t_modulus)
        ∧ (∃ dst' sI', InputSerializer.serialize_SerializeableDeriv x86_64
              (ObjectRepr.unobserved _) (showcase_deriv_input x86_64)
              ⟨(showcase_base_output x86_64).serializedData.bytes, true⟩ = .ok (dst', sI')
            ∧ dst'.updatedOnSerialization
                = ((showcase_deriv_input x86_64).updatedOnSerialization + 1)
                    % x86_64.size_t_modulus)) :=
  ⟨by decide, by decide, by decide, by decide, by decide, by decide,
    hook_runs_once_per_call x86_64 "void" (ObjectRepr.unobserved _) (ObjectRepr.unobserved _)
      (showcase_base_output x86_64) (showcase_base_input x86_64)
      (showcase_deriv_output x86_64) (showcase_deriv_input x86_64)
      ⟨[]⟩ ⟨(showcase_base_output x86_64).serializedData.bytes, true⟩
      (by decide) (by decide) (by decide) (by decide)⟩

/-! ## Streams that end early -/

theorem output_primary_rejected {α : Type} (T : CppType) (repr : ObjectRepr α)
    (hook : α → OStream → Except Failure (α × OStream)) (item : α) (s : OStream)
    (hT : is_trivially_serializeable_v T = false) (hS : is_base_of_Serializeable T = false) :
    OutputSerializer.serialize_primary T repr hook item s = .error .static_assert := by
  simp [OutputSerializer.serialize_primary, hT, hS]

theorem input_primary_rejected {α : Type} (T : CppType) (repr : ObjectRepr α)
    (hook : α → IStream → Except Failure (α × IStream)) (item : α) (s : IStream)
    (hT : is_trivially_serializeable_v T = false) (hS : is_base_of_Serializeable T = false) :
    InputSerializer.serialize_primary T repr hook item s = .error .static_assert := by
  simp [InputSerializer.serialize_primary, hT, hS]

theorem directly_of_trivially (T : CppType) (hT : is_trivially_serializeable_v T = true) :
    is_directly_serializeable_v T = true := by
  cases T <;>
    first
    | exact hT
    | (simp [is_trivially_serializeable_v, is_base_of_trivially_serializeable, is_arithmetic_v,
        is_enum_v] at hT)

/-- Nested vectors over a trivially serializeable leaf are directly serializeable
at every depth. -/
theorem directly_serializeable_nested_vector (n : Nat) (T : CppType)
    (hT : is_trivially_serializeable_v T = true) :
    is_directly_serializeable_v (nested_vector n T) = true := by
  induction n with
  | zero => exact directly_of_trivially T hT
  | succ n ih => simpa [nested_vector, is_directly_serializeable_v] using ih

/-- From depth three on, the `static_assert` of the vector overloads fails, for
every leaf type. -/
theorem static_asserts_nested_vector (h : Host) (n : Nat) (T : CppType) :
    OutputSerializer.serialize_static_asserts h (nested_vector (n + 3) T) = false
      ∧ InputSerializer.serialize_static_asserts h (nested_vector (n + 3) T) = false := by
  have h1 : is_serialzieable_v (nested_vector (n + 2) T) = false := by
    simp [nested_vector, is_serialzieable_v, is_simply_serializeable_v, not_trivially_vector]
  constructor
  · rw [nested_vector, OutputSerializer.serialize_static_asserts, h1]; rfl
  · rw [nested_vector, InputSerializer.serialize_static_asserts, h1]; rfl

/-- The same rejection, seen on the embedded overload sets: from depth three on,
every call yields the `static_assert` failure. -/
theorem serialize_nested_vector_rejected (h : Host) (n : Nat) (T : CppType) (item : Value)
    (sO : OStream) (sI : IStream) :
    OutputSerializer.serialize h (nested_vector (n + 3) T) item sO = .error .static_assert
      ∧ InputSerializer.serialize h (nested_vector (n + 3) T) item sI = .error .static_assert := by
  have h1 : is_serialzieable_v (nested_vector (n + 2) T) = false := by
    simp [nested_vector, is_serialzieable_v, is_simply_serializeable_v, not_trivially_vector]
  constructor
  · cases item <;> (rw [nested_vector, OutputSerializer.serialize, h1]; rfl)
  · cases item <;> (rw [nested_vector, InputSerializer.serialize, h1]; rfl)

/-- C10 (evaluation at the failing input). `std::vector<std::vector<std::vector<int>>>`
is classified directly serializeable, and depths one and two pass every
`static_assert` of both serializers, but at depth three the element type
`std::vector<std::vector<int>>` fails `is_serialzieable_v`, so the
`static_assert` of the vector overload rejects the type in both serializers,
even for an empty vector. -/
theorem deep_nesting_rejected_by_static_assert :
    is_trivially_serializeable_v x86_64.int = true
      ∧ is_directly_serializeable_v (nested_vector 3 x86_64.int) = true
      ∧ OutputSerializer.serialize_static_asserts x86_64 (nested_vector 1 x86_64.int) = true
      ∧ InputSerializer.serialize_static_asserts x86_64 (nested_vector 1 x86_64.int) = true
      ∧ OutputSerializer.serialize_static_asserts x86_64 (nested_vector 2 x86_64.int) = true
      ∧ InputSerializer.serialize_static_asserts x86_64 (nested_vector 2 x86_64.int) = true
      ∧ is_serialzieable_v (nested_vector 2 x86_64.int) = false
      ∧ OutputSerializer.serialize_static_asserts x86_64 (nested_vector 3 x86_64.int) = false
      ∧ InputSerializer.serialize_static_asserts x86_64 (nested_vector 3 x86_64.int) = false
      ∧ OutputSerializer.serialize x86_64 (nested_vector 3 x86_64.int) (.vec []) ⟨[]⟩
          = .error .static_assert
      ∧ InputSerializer.serialize x86_64 (nested_vector 3 x86_64.int) (.vec [])
          ⟨x86_64.objectRepr x86_64.sizeof_size_t 0, true⟩ = .error .static_assert := by
  refine ⟨by decide, by decide, by decide, by decide, by decide, by decide, by decide, by decide,
    by decide, by rfl, by rfl⟩

/-! ## The capability predicates -/

/-- C11. A map-like container (`map`, `multimap`, `unordered_map`,
`unordered_multimap`) is directly serializeable exactly when both its key type
and its value type are, and a set-like container (`set`, `multiset`,
`unordered_set`, `unordered_multiset`) exactly when its element type is. -/
theorem container_extension_rule (K V T : CppType) :
    (is_directly_serializeable_v (.map K V) = true ↔
        is_directly_serializeable_v K = true ∧ is_directly_serializeable_v V = true)
      ∧ (is_directly_serializeable_v (.multimap K V) = true ↔
        is_directly_serializeable_v K = true ∧ is_directly_serializeable_v V = true)
      ∧ (is_directly_serializeable_v (.unordered_map K V) = true ↔
        is_directly_serializeable_v K = true ∧ is_directly_serializeable_v V = true)
      ∧ (is_directly_serializeable_v (.unordered_multimap K V) = true ↔
        is_directly_serializeable_v K = true ∧ is_directly_serializeable_v V = true)
      ∧ (is_directly_serializeable_v (.set T) = true ↔ is_directly_serializeable_v T = true)
      ∧ (is_directly_serializeable_v (.multiset T) = true ↔
        is_directly_serializeable_v T = true)
      ∧ (is_directly_serializeable_v (.unordered_set T) = true ↔
        is_directly_serializeable_v T = true)
      ∧ (is_directly_serializeable_v (.unordered_multiset T) = true ↔
        is_directly_serializeable_v T = true) := by
  refine ⟨?_, ?_, ?_, ?_, ?_, ?_, ?_, ?_⟩ <;> simp [is_directly_serializeable_v]

/-- C13 (evaluation at the failing input). `SerializeableDeriv` derives from
`Serializeable<SerializeableDeriv>` and the primary templates accept it, but
`is_serialzieable_v` is false for it, and also for `std::vector<std::vector<int>>`,
a container of a simply serializeable type; so the vector overloads of both
serializers reject `std::vector<SerializeableDeriv>` by their `static_assert`
and never reach the element loop that would run the hook. -/
theorem is_serialzieable_v_misses_documented_kinds :
    is_base_of_Serializeable (.classType (SerializeableDeriv.decl x86_64)) = true
      ∧ OutputSerializer.serialize_static_asserts x86_64
          (.classType (SerializeableDeriv.decl x86_64)) = true
      ∧ InputSerializer.serialize_static_asserts x86_64
          (.classType (SerializeableDeriv.decl x86_64)) = true
      ∧ is_serialzieable_v (.classType (SerializeableDeriv.decl x86_64)) = false
      ∧ is_simply_serializeable_v (.vector x86_64.int) = true
      ∧ is_serialzieable_v (.vector (.vector x86_64.int)) = false
      ∧ OutputSerializer.serialize_static_asserts x86_64
          (.vector (.classType (SerializeableDeriv.decl x86_64))) = false
      ∧ InputSerializer.serialize_static_asserts x86_64
          (.vector (.classType (SerializeableDeriv.decl x86_64))) = false
      ∧ OutputSerializer.serialize x86_64 (.vector (.classType (SerializeableDeriv.decl x86_64)))
          (.vec []) ⟨[]⟩ = .error .static_assert
      ∧ InputSerializer.serialize x86_64 (.vector (.classType (SerializeableDeriv.decl x86_64)))
          (.vec []) ⟨x86_64.objectRepr x86_64.sizeof_size_t 0, true⟩ = .error .static_assert := by
  refine ⟨by decide, by decide, by decide, by decide, by decide, by decide, by decide, by decide,
    by rfl, by rfl⟩

/-- Every declared container kind other than `std::vector` goes to the primary
template and fails its `static_assert`, whatever its parameters. -/
theorem other_containers_rejected (h : Host) (T K V : CppType) :
    (∀ C ∈ [CppType.deque T, .forward_list T, .list T, .set T, .multiset T, .unordered_set T,
        .unordered_multiset T, .map K V, .multimap K V, .unordered_map K V,
        .unordered_multimap K V],
      OutputSerializer.serialize_static_asserts h C = false
        ∧ InputSerializer.serialize_static_asserts h C = false
        ∧ (∀ item s, OutputSerializer.serialize h C item s = .error .static_assert)
        ∧ ∀ item s, InputSerializer.serialize h C item s = .error .static_assert) := by
  intro C hC
  simp only [List.mem_cons, List.mem_singleton, List.not_mem_nil, or_false] at hC
  have key : ∀ C : CppType, is_trivially_serializeable_v C = false →
      is_base_of_Serializeable C = false → (∀ U, C ≠ .vector U) →
      OutputSerializer.serialize_static_asserts h C = false
        ∧ InputSerializer.serialize_static_asserts h C = false
        ∧ (∀ item s, OutputSerializer.serialize h C item s = .error .static_assert)
        ∧ ∀ item s, InputSerializer.serialize h C item s = .error .static_assert := by
    intro C h1 h2 h3
    have e1 : ∀ item s, OutputSerializer.serialize h C item s
        = OutputSerializer.serialize_primary C Value.objectRepr Value.no_hook item s := by
      intro item s
      cases C <;> first | rfl | exact absurd rfl (h3 _)
    have e2 : ∀ item s, InputSerializer.serialize h C item s
        = InputSerializer.serialize_primary C Value.objectRepr Value.no_hook item s := by
      intro item s
      cases C <;> first | rfl | exact absurd rfl (h3 _)
    refine ⟨?_, ?_, fun item s => ?_, fun item s => ?_⟩
    · cases C <;> first
        | (simp [OutputSerializer.serialize_static_asserts, h1, h2]; done)
        | exact absurd rfl (h3 _)
    · cases C <;> first
        | (simp [InputSerializer.serialize_static_asserts, h1, h2]; done)
        | exact absurd rfl (h3 _)
    · rw [e1, output_primary_rejected _ _ _ _ _ h1 h2]
    · rw [e2, input_primary_rejected _ _ _ _ _ h1 h2]
  rcases hC with rfl | rfl | rfl | rfl | rfl | rfl | rfl | rfl | rfl | rfl | rfl <;>
    exact key _ (by simp [is_trivially_serializeable_v, is_base_of_trivially_serializeable,
      is_arithmetic_v, is_enum_v]) (by simp [is_base_of_Serializeable]) (by intro U hU; cases hU)

/-- C14 (evaluation at the failing input). With `int` parameters every declared
container kind is directly serializeable, and `std::vector<int>` passes the
`static_assert`s of both serializers; but `std::deque<int>`, like each of the
other ten kinds, is rejected at build time by both serializers; the deque
`{1, 2, 3}` is given by its elements. -/
theorem declared_containers_rejected_except_vector :
    (∀ C ∈ [CppType.vector x86_64.int, .deque x86_64.int, .forward_list x86_64.int,
        .list x86_64.int, .set x86_64.int, .multiset x86_64.int, .unordered_set x86_64.int,
        .unordered_multiset x86_64.int, .map x86_64.int x86_64.int,
        .multimap x86_64.int x86_64.int, .unordered_map x86_64.int x86_64.int,
        .unordered_multimap x86_64.int x86_64.int],
      is_directly_serializeable_v C = true)
      ∧ OutputSerializer.serialize_static_asserts x86_64 (.vector x86_64.int) = true
      ∧ InputSerializer.serialize_static_asserts x86_64 (.vector x86_64.int) = true
      ∧ (∀ C ∈ [CppType.deque x86_64.int, .forward_list x86_64.int,
          .list x86_64.int, .set x86_64.int, .multiset x86_64.int, .unordered_set x86_64.int,
          .unordered_multiset x86_64.int, .map x86_64.int x86_64.int,
          .multimap x86_64.int x86_64.int, .unordered_map x86_64.int x86_64.int,
          .unordered_multimap x86_64.int x86_64.int],
        OutputSerializer.serialize_static_asserts x86_64 C = false
          ∧ InputSerializer.serialize_static_asserts x86_64 C = false)
      ∧ OutputSerializer.serialize x86_64 (.deque x86_64.int) (int_vector x86_64 [1, 2, 3]) ⟨[]⟩
          = .error .static_assert
      ∧ InputSerializer.serialize x86_64 (.deque x86_64.int) (.vec [])
          ⟨OutputSerializer.output x86_64 (.vector x86_64.int) (int_vector x86_64 [1, 2, 3]),
            true⟩ = .error .static_assert := by
  refine ⟨by decide, by decide, by decide, by decide, by rfl, by rfl⟩

theorem output_serialize_classType (h : Host) (c : ClassDecl) (item : Value) (s : OStream) :
    OutputSerializer.serialize h (.classType c) item s
      = OutputSerializer.serialize_primary (.classType c) Value.objectRepr Value.no_hook item s :=
  rfl

theorem input_serialize_classType (h : Host) (c : ClassDecl) (item : Value) (s : IStream) :
    InputSerializer.serialize h (.classType c) item s
      = InputSerializer.serialize_primary (.classType c) Value.objectRepr Value.no_hook item s :=
  rfl

theorem trivially_classType (c : ClassDecl) :
    is_trivially_serializeable_v (.classType c)
      = is_base_of_trivially_serializeable (.classType c) := by
  simp [is_trivially_serializeable_v, is_arithmetic_v, is_enum_v]

/-- A type without markers that is neither a scalar, an enumeration nor an
array of trivially serializeable elements is not trivially serializeable. -/
theorem not_trivially_of_unmarked (U : CppType) (hclass : is_class_v U = true)
    (hu : is_base_of_trivially_serializeable U = false)
    (harr : ∀ T N, U = .std_array T N → is_trivially_serializeable_v T = false) :
    is_trivially_serializeable_v U = false := by
  cases U <;> first
    | (simp [is_class_v] at hclass; done)
    | (rw [is_trivially_serializeable_v]; exact harr _ _ rfl)
    | simp [is_trivially_serializeable_v, hu, is_arithmetic_v, is_enum_v]

/-- A type that is not trivially serializeable, does not derive from its
`Serializeable` marker and is not a vector of serializable elements fails a
`static_assert` in both serializers, whatever the object and the stream. -/
theorem rejected_of_unmarked (h : Host) (U : CppType)
    (h1 : is_trivially_serializeable_v U = false) (h2 : is_base_of_Serializeable U = false)
    (h3 : ∀ T, U = .vector T → is_serialzieable_v T = false) :
    OutputSerializer.serialize_static_asserts h U = false
      ∧ InputSerializer.serialize_static_asserts h U = false
      ∧ (∀ item s, OutputSerializer.serialize h U item s = .error .static_assert)
      ∧ ∀ item s, InputSerializer.serialize h U item s = .error .static_assert := by
  by_cases hvec : ∃ T, U = .vector T
  · obtain ⟨T, rfl⟩ := hvec
    have hT := h3 T rfl
    refine ⟨?_, ?_, fun item s => ?_, fun item s => ?_⟩
    · rw [OutputSerializer.serialize_static_asserts, hT]; rfl
    · rw [InputSerializer.serialize_static_asserts, hT]; rfl
    · cases item <;> (rw [OutputSerializer.serialize, hT]; rfl)
    · cases item <;> (rw [InputSerializer.serialize, hT]; rfl)
  · have h4 : ∀ T, U ≠ .vector T := fun T hT => hvec ⟨T, hT⟩
    have e1 : ∀ item s, OutputSerializer.serialize h U item s
        = OutputSerializer.serialize_primary U Value.objectRepr Value.no_hook item s := by
      intro item s
      cases U <;> first | rfl | exact absurd rfl (h4 _)
    have e2 : ∀ item s, InputSerializer.serialize h U item s
        = InputSerializer.serialize_primary U Value.objectRepr Value.no_hook item s := by
      intro item s
      cases U <;> first | rfl | exact absurd rfl (h4 _)
    refine ⟨?_, ?_, fun item s => ?_, fun item s => ?_⟩
    · cases U <;> first
        | (simp [OutputSerializer.serialize_static_asserts, h1, h2]; done)
        | exact absurd rfl (h4 _)
    · cases U <;> first
        | (simp [InputSerializer.serialize_static_asserts, h1, h2]; done)
        | exact absurd rfl (h4 _)
    · rw [e1, output_primary_rejected _ _ _ _ _ h1 h2]
    · rw [e2, input_primary_rejected _ _ _ _ _ h1 h2]

/-- C15 (counterexample). `std::array<int, 3>` is a class type that is neither
arithmetic nor an enumeration and derives from no marker, and it has the size
and layout of `TriviallySerializeable`; yet the specialisation for
`std::array` makes `is_trivially_serializeable_v` true for it and both
serializers accept it and copy its bytes. Likewise `std::vector<int>` is an
unmarked class type that both serializers accept, through the vector
overload. -/
theorem unmarked_standard_templates_accepted :
    is_class_v (.std_array x86_64.int 3) = true
      ∧ is_arithmetic_v (.std_array x86_64.int 3) = false
      ∧ is_enum_v (.std_array x86_64.int 3) = false
      ∧ is_base_of_trivially_serializeable (.std_array x86_64.int 3) = false
      ∧ is_base_of_Serializeable (.std_array x86_64.int 3) = false
      ∧ sizeof (.std_array x86_64.int 3) = sizeof (TriviallySerializeable.type x86_64)
      ∧ is_trivially_serializeable_v (.std_array x86_64.int 3) = true
      ∧ OutputSerializer.serialize x86_64 (.std_array x86_64.int 3)
          (.raw (x86_64.intRepr 1 ++ x86_64.intRepr 1 ++ x86_64.intRepr 2)) ⟨[]⟩
        = .ok (.raw (x86_64.intRepr 1 ++ x86_64.intRepr 1 ++ x86_64.intRepr 2),
            ⟨x86_64.intRepr 1 ++ x86_64.intRepr 1 ++ x86_64.intRepr 2⟩)
      ∧ InputSerializer.serialize x86_64 (.std_array x86_64.int 3)
          (.raw (x86_64.intRepr 0 ++ x86_64.intRepr 0 ++ x86_64.intRepr 0))
          ⟨x86_64.intRepr 1 ++ x86_64.intRepr 1 ++ x86_64.intRepr 2, true⟩
        = .ok (.raw (x86_64.intRepr 1 ++ x86_64.intRepr 1 ++ x86_64.intRepr 2), ⟨[], true⟩)
      ∧ is_class_v (.vector x86_64.int) = true
      ∧ is_base_of_trivially_serializeable (.vector x86_64.int) = false
      ∧ is_base_of_Serializeable (.vector x86_64.int) = false
      ∧ is_trivially_serializeable_v (.vector x86_64.int) = false
      ∧ OutputSerializer.serialize x86_64 (.vector x86_64.int) (int_vector x86_64 [1, 1, 2]) ⟨[]⟩
        = .ok (int_vector x86_64 [1, 1, 2],
            ⟨x86_64.objectRepr x86_64.sizeof_size_t 3
              ++ (x86_64.intRepr 1 ++ x86_64.intRepr 1 ++ x86_64.intRepr 2)⟩)
      ∧ InputSerializer.serialize x86_64 (.vector x86_64.int) (.vec [])
          ⟨x86_64.objectRepr x86_64.sizeof_size_t 3
            ++ (x86_64.intRepr 1 ++ x86_64.intRepr 1 ++ x86_64.intRepr 2), true⟩
        = .ok (int_vector x86_64 [1, 1, 2], ⟨[], true⟩) := by
  refine ⟨by decide, by decide, by decide, by decide, by decide, by decide, by decide, by rfl,
    by rfl, by decide, by decide, by decide, by decide, by rfl, by rfl⟩

/-- C15 (amended). Let `U` be a class type that derives neither from
`trivially_serializeable<U>` nor from `Serializeable<U>`, and that is neither a
`std::array` of trivially serializeable elements nor a `std::vector` of
elements with `is_serialzieable_v` (the two standard templates the code
treats without a marker). Then `U` is not trivially serializeable and is
rejected by a `static_assert` of both serializers, whatever object, hook or
stream is involved. This does not depend on its layout: a class `t` that
derives from `trivially_serializeable<t>` is accepted, and an object `v` of
`t` is written as its bytes, while the very same bytes offered as an object of
`U` are rejected. -/
theorem markers_not_inferred_from_layout {α : Type} (h : Host) (U : CppType) (t : ClassDecl)
    (repr : ObjectRepr α) (hookO : α → OStream → Except Failure (α × OStream))
    (hookI : α → IStream → Except Failure (α × IStream)) (item : α) (v : Value)
    (sO : OStream) (sI : IStream)
    (hclass : is_class_v U = true)
    (hu : is_base_of_trivially_serializeable U = false)
    (hs : is_base_of_Serializeable U = false)
    (harr : ∀ T N, U = .std_array T N → is_trivially_serializeable_v T = false)
    (hvec : ∀ T, U = .vector T → is_serialzieable_v T = false)
    (ht : is_base_of_trivially_serializeable (.classType t) = true)
    (hv : v.hasType h (.classType t) = true) :
    is_trivially_serializeable_v U = false
      ∧ OutputSerializer.serialize_static_asserts h U = false
      ∧ InputSerializer.serialize_static_asserts h U = false
      ∧ OutputSerializer.serialize_primary U repr hookO item sO = .error .static_assert
      ∧ InputSerializer.serialize_primary U repr hookI item sI = .error .static_assert
      ∧ OutputSerializer.serialize h U v sO = .error .static_assert
      ∧ InputSerializer.serialize h U v sI = .error .static_assert
      ∧ is_trivially_serializeable_v (.classType t) = true
      ∧ OutputSerializer.serialize h (.classType t) v sO = .ok (v, ⟨sO.data ++ v.bytes⟩) := by
  have h1 := not_trivially_of_unmarked U hclass hu harr
  have h2 : is_trivially_serializeable_v (.classType t) = true := by
    rw [trivially_classType, ht]
  obtain ⟨r1, r2, r3, r4⟩ := rejected_of_unmarked h U h1 hs hvec
  exact ⟨h1, r1, r2, output_primary_rejected _ _ _ _ _ h1 hs,
    input_primary_rejected _ _ _ _ _ h1 hs, r3 v sO, r4 v sI, h2,
    output_trivial_object h _ v sO h2 hv⟩

/-- C15 (witness): a plain `struct Plain` of three `int`s against the showcase's
`TriviallySerializeable`, both 12 bytes, on the object `{1, 1, 2}`. -/
theorem markers_not_inferred_from_layout_witness :
    is_class_v (.classType (.user "Plain" 12 [])) = true
      ∧ is_base_of_trivially_serializeable (.classType (.user "Plain" 12 [])) = false
      ∧ is_base_of_Serializeable (.classType (.user "Plain" 12 [])) = false
      ∧ (∀ T N, CppType.classType (.user "Plain" 12 []) = .std_array T N →
          is_trivially_serializeable_v T = false)
      ∧ (∀ T, CppType.classType (.user "Plain" 12 []) = .vector T →
          is_serialzieable_v T = false)
      ∧ is_base_of_trivially_serializeable (.classType (TriviallySerializeable.decl x86_64)) = true
      ∧ (TriviallySerializeable.mk x86_64 1 1 2).hasType x86_64
          (.classType (TriviallySerializeable.decl x86_64)) = true
      ∧ sizeof (.classType (.user "Plain" 12 []))
          = sizeof (.classType (TriviallySerializeable.decl x86_64))
      ∧ (is_trivially_serializeable_v (.classType (.user "Plain" 12 [])) = false
        ∧ OutputSerializer.serialize_static_asserts x86_64 (.classType (.user "Plain" 12 []))
          = false
        ∧ InputSerializer.serialize_static_asserts x86_64 (.classType (.user "Plain" 12 []))
          = false
        ∧ OutputSerializer.serialize_primary (.classType (.user "Plain" 12 [])) Value.objectRepr
            Value.no_hook (TriviallySerializeable.mk x86_64 1 1 2) ⟨[]⟩ = .error .static_assert
        ∧ InputSerializer.serialize_primary (.classType (.user "Plain" 12 [])) Value.objectRepr
            Value.no_hook (TriviallySerializeable.mk x86_64 1 1 2)
            ⟨(TriviallySerializeable.mk x86_64 1 1 2).bytes, true⟩ = .error .static_assert
        ∧ OutputSerializer.serialize x86_64 (.classType (.user "Plain" 12 []))
            (TriviallySerializeable.mk x86_64 1 1 2) ⟨[]⟩ = .error .static_assert
        ∧ InputSerializer.serialize x86_64 (.classType (.user "Plain" 12 []))
            (TriviallySerializeable.mk x86_64 1 1 2)
            ⟨(TriviallySerializeable.mk x86_64 1 1 2).bytes, true⟩ = .error .static_assert
        ∧ is_trivially_serializeable_v (.classType (TriviallySerializeable.decl x86_64)) = true
        ∧ OutputSerializer.serialize x86_64 (.classType (TriviallySerializeable.decl x86_64))
            (TriviallySerializeable.mk x86_64 1 1 2) ⟨[]⟩
          = .ok (TriviallySerializeable.mk x86_64 1 1 2,
              ⟨[] ++ (TriviallySerializeable.mk x86_64 1 1 2).bytes⟩)) :=
  ⟨by decide, by decide, by decide, (fun _ _ hU => by cases hU), (fun _ hU => by cases hU),
    by decide, by decide, by decide,
    markers_not_inferred_from_layout x86_64 (.classType (.user "Plain" 12 []))
      (TriviallySerializeable.decl x86_64) Value.objectRepr Value.no_hook Value.no_hook
      (TriviallySerializeable.mk x86_64 1 1 2) (TriviallySerializeable.mk x86_64 1 1 2)
      ⟨[]⟩ ⟨(TriviallySerializeable.mk x86_64 1 1 2).bytes, true⟩
      (by decide) (by decide) (by decide) (fun _ _ hU => by cases hU) (fun _ hU => by cases hU)
      (by decide) (by decide)⟩

theorem simply_of_trivially (T : CppType) (hT : is_trivially_serializeable_v T = true) :
    is_simply_serializeable_v T = true := serialzieable_of_trivial T hT

theorem directly_of_simply (T : CppType) (hT : is_simply_serializeable_v T = true) :
    is_directly_serializeable_v T = true := by
  cases T <;>
    first
    | exact hT
    | (rw [is_directly_serializeable_v]; exact directly_of_trivially _ hT)
    | (simp [is_simply_serializeable_v, is_trivially_serializeable_v,
        is_base_of_trivially_serializeable, is_arithmetic_v, is_enum_v] at hT)

/-- C19. For every type, trivially serializeable implies simply serializeable,
simply serializeable implies directly serializeable, and `is_serialzieable_v`
has the value of `is_simply_serializeable_v`. -/
theorem capability_predicates_chain (T : CppType) :
    (is_trivially_serializeable_v T = true → is_simply_serializeable_v T = true)
      ∧ (is_simply_serializeable_v T = true → is_directly_serializeable_v T = true)
      ∧ is_serialzieable_v T = is_simply_serializeable_v T :=
  ⟨simply_of_trivially T, directly_of_simply T, rfl⟩

/-- C19 (witness): `TriviallySerializeable[4]` climbs the whole chain, and
`std::vector<int>` its second step. -/
theorem capability_predicates_chain_witness :
    is_trivially_serializeable_v (.array (TriviallySerializeable.type x86_64) 4) = true
      ∧ is_simply_serializeable_v (.array (TriviallySerializeable.type x86_64) 4) = true
      ∧ is_directly_serializeable_v (.array (TriviallySerializeable.type x86_64) 4) = true
      ∧ is_trivially_serializeable_v (.vector x86_64.int) = false
      ∧ is_simply_serializeable_v (.vector x86_64.int) = true
      ∧ is_directly_serializeable_v (.vector x86_64.int) = true
      ∧ is_serialzieable_v (.vector x86_64.int) = is_simply_serializeable_v (.vector x86_64.int) :=
  ⟨by decide,
    (capability_predicates_chain (.array (TriviallySerializeable.type x86_64) 4)).1 (by decide),
    (capability_predicates_chain (.array (TriviallySerializeable.type x86_64) 4)).2.1
      ((capability_predicates_chain (.array (TriviallySerializeable.type x86_64) 4)).1
        (by decide)),
    by decide, by decide,
    (capability_predicates_chain (.vector x86_64.int)).2.1 (by decide),
    (capability_predicates_chain (.vector x86_64.int)).2.2⟩

/-! ## Priority of the trivially serializeable branch -/

/-- C16. For a type `T` that is trivially serializeable and also derives from
`Serializeable<T>`, `OutputSerializer::serialize` appends exactly the `sizeof(T)`
bytes of the object and `InputSerializer::serialize` stores exactly the next
`sizeof(T)` bytes of the stream into it; the outcome is the same whatever the
hook `T::serialize` would do, so the hook is never run. -/
theorem trivial_rule_precedes_custom_rule {α : Type} (T : CppType) (repr : ObjectRepr α)
    (hookO hookO' : α → OStream → Except Failure (α × OStream))
    (hookI hookI' : α → IStream → Except Failure (α × IStream)) (item : α) (sO : OStream)
    (data rest : List Byte)
    (hT : is_trivially_serializeable_v T = true) (hS : is_base_of_Serializeable T = true)
    (hitem : (repr.bytes item).length = sizeof T) (hdata : data.length = sizeof T) :
    OutputSerializer.serialize_primary T repr hookO item sO
        = .ok (item, ⟨sO.data ++ repr.bytes item⟩)
      ∧ OutputSerializer.serialize_primary T repr hookO' item sO
        = OutputSerializer.serialize_primary T repr hookO item sO
      ∧ InputSerializer.serialize_primary T repr hookI item ⟨data ++ rest, true⟩
        = .ok (repr.store item data, ⟨rest, true⟩)
      ∧ InputSerializer.serialize_primary T repr hookI' item ⟨data ++ rest, true⟩
        = InputSerializer.serialize_primary T repr hookI item ⟨data ++ rest, true⟩ := by
  have hO : ∀ hook, OutputSerializer.serialize_primary T repr hook item sO
      = .ok (item, ⟨sO.data ++ repr.bytes item⟩) := by
    intro hook
    simp [OutputSerializer.serialize_primary, hT, hS, OStream.write,
      List.take_of_length_le (le_of_eq hitem)]
  have hI : ∀ hook, InputSerializer.serialize_primary T repr hook item ⟨data ++ rest, true⟩
      = .ok (repr.store item data, ⟨rest, true⟩) := by
    intro hook
    simp [InputSerializer.serialize_primary, hT, hS,
      read_append_exact data rest (repr.bytes item) (sizeof T) hdata (le_of_eq hitem)]
  exact ⟨hO hookO, by rw [hO hookO', hO hookO], hI hookI, by rw [hI hookI', hI hookI]⟩

/-- C16 (witness): the class `Both`, which carries both markers, with a hook that
fails and a hook that does nothing. -/
theorem trivial_rule_precedes_custom_rule_witness :
    is_trivially_serializeable_v (.classType Both.decl) = true
      ∧ is_base_of_Serializeable (.classType Both.decl) = true
      ∧ (Value.objectRepr.bytes (TriviallySerializeable.mk x86_64 1 1 2)).length
        = sizeof (.classType Both.decl)
      ∧ (TriviallySerializeable.mk x86_64 3 5 8).bytes.length = sizeof (.classType Both.decl)
      ∧ (OutputSerializer.serialize_primary (.classType Both.decl) Value.objectRepr
            Value.no_hook (TriviallySerializeable.mk x86_64 1 1 2) ⟨[]⟩
          = .ok (TriviallySerializeable.mk x86_64 1 1 2,
              ⟨[] ++ Value.objectRepr.bytes (TriviallySerializeable.mk x86_64 1 1 2)⟩)
        ∧ OutputSerializer.serialize_primary (.classType Both.decl) Value.objectRepr
            (fun v s => .ok (v, s)) (TriviallySerializeable.mk x86_64 1 1 2) ⟨[]⟩
          = OutputSerializer.serialize_primary (.classType Both.decl) Value.objectRepr
            Value.no_hook (TriviallySerializeable.mk x86_64 1 1 2) ⟨[]⟩
        ∧ InputSerializer.serialize_primary (.classType Both.decl) Value.objectRepr
            Value.no_hook (TriviallySerializeable.mk x86_64 1 1 2)
            ⟨(TriviallySerializeable.mk x86_64 3 5 8).bytes ++ [], true⟩
          = .ok (Value.objectRepr.store (TriviallySerializeable.mk x86_64 1 1 2)
              (TriviallySerializeable.mk x86_64 3 5 8).bytes, ⟨[], true⟩)
        ∧ InputSerializer.serialize_primary (.classType Both.decl) Value.objectRepr
            (fun v s => .ok (v, s)) (TriviallySerializeable.mk x86_64 1 1 2)
            ⟨(TriviallySerializeable.mk x86_64 3 5 8).bytes ++ [], true⟩
          = InputSerializer.serialize_primary (.classType Both.decl) Value.objectRepr
            Value.no_hook (TriviallySerializeable.mk x86_64 1 1 2)
            ⟨(TriviallySerializeable.mk x86_64 3 5 8).bytes ++ [], true⟩) :=
  ⟨by decide, by decide, by decide, by decide,
    trivial_rule_precedes_custom_rule (.classType Both.decl) Value.objectRepr Value.no_hook
      (fun v s => .ok (v, s)) Value.no_hook (fun v s => .ok (v, s))
      (TriviallySerializeable.mk x86_64 1 1 2) ⟨[]⟩
      (TriviallySerializeable.mk x86_64 3 5 8).bytes [] (by decide) (by decide) (by decide)
      (by decide)⟩

/-! ## Exact consumption and sequences of objects -/

/-- C20. `InputSerializer::serialize` on a `SerializeableBase<T>` or
`SerializeableDeriv` destination, on any stream, returns with the destination's
`unserializedData` equal to its value before the call; and
`OutputSerializer::serialize` on a source returns with the source's
`serializedData` and `unserializedData` (and `moreSerializedData`) unchanged. -/
theorem custom_decode_frame (h : Host) (T : String)
    (reprB : ObjectRepr SerializeableBase) (reprD : ObjectRepr SerializeableDeriv)
    (src dst : SerializeableBase) (srcD dstD : SerializeableDeriv) (sO : OStream) (sI : IStream)
    (hsrc : src.wellFormed h = true) (hdst : dst.wellFormed h = true)
    (hsrcD : srcD.wellFormed h = true) (hdstD : dstD.wellFormed h = true) :
    (∃ dst' sI', InputSerializer.serialize_SerializeableBase h T reprB dst sI = .ok (dst', sI')
        ∧ dst'.unserializedData = dst.unserializedData)
    ∧ (∃ dst' sI', InputSerializer.serialize_SerializeableDeriv h reprD dstD sI = .ok (dst', sI')
        ∧ dst'.unserializedData = dstD.unserializedData)
    ∧ (∃ src' sO', OutputSerializer.serialize_SerializeableBase h T reprB src sO = .ok (src', sO')
        ∧ src'.serializedData = src.serializedData
        ∧ src'.unserializedData = src.unserializedData)
    ∧ (∃ src' sO', OutputSerializer.serialize_SerializeableDeriv h reprD srcD sO = .ok (src', sO')
        ∧ src'.serializedData = srcD.serializedData
        ∧ src'.unserializedData = srcD.unserializedData
        ∧ src'.moreSerializedData = srcD.moreSerializedData) := by
  have hBo := SerializeableBase_serialize_output h src sO hsrc
  have hBi := SerializeableBase_serialize_input h dst sI hdst
  have hDo := SerializeableDeriv_serialize_output h srcD sO hsrcD
  obtain ⟨data, more, s', hDi⟩ := SerializeableDeriv_serialize_input h dstD sI hdstD
  rw [OutputSerializer.serialize_SerializeableBase, InputSerializer.serialize_SerializeableBase,
    OutputSerializer.serialize_SerializeableDeriv, InputSerializer.serialize_SerializeableDeriv,
    output_primary_hook _ _ _ _ _ (SerializeableBase_not_trivially h T)
      (SerializeableBase_is_base_of h T),
    input_primary_hook _ _ _ _ _ (SerializeableBase_not_trivially h T)
      (SerializeableBase_is_base_of h T),
    output_primary_hook _ _ _ _ _ (SerializeableDeriv_not_trivially h)
      (SerializeableDeriv_is_base_of h),
    input_primary_hook _ _ _ _ _ (SerializeableDeriv_not_trivially h)
      (SerializeableDeriv_is_base_of h)]
  exact ⟨⟨_, _, hBi, rfl⟩, ⟨_, _, hDi, rfl⟩, ⟨_, _, hBo, rfl, rfl⟩, ⟨_, _, hDo, rfl, rfl, rfl⟩⟩

/-- C20 (witness): the objects of the showcase; the base destination keeps its 4949
although the stream was written from a source holding 1234. -/
theorem custom_decode_frame_witness :
    (showcase_base_output x86_64).wellFormed x86_64 = true
      ∧ (showcase_base_input x86_64).wellFormed x86_64 = true
      ∧ (showcase_deriv_output x86_64).wellFormed x86_64 = true
      ∧ (showcase_deriv_input x86_64).wellFormed x86_64 = true
      ∧ (showcase_base_output x86_64).unserializedData = 1234
      ∧ (showcase_base_input x86_64).unserializedData = 4949
      ∧ ((∃ dst' sI', InputSerializer.serialize_SerializeableBase x86_64 "void"
              (ObjectRepr.unobserved _) (showcase_base_input x86_64)
              ⟨(showcase_base_output x86_64).serializedData.bytes, true⟩ = .ok (dst', sI')
            ∧ dst'.unserializedData = (showcase_base_input x86_64).unserializedData)
        ∧ (∃ dst' sI', InputSerializer.serialize_SerializeableDeriv x86_64
              (ObjectRepr.unobserved _) (showcase_deriv_input x86_64)
              ⟨(showcase_base_output x86_64).serializedData.bytes, true⟩ = .ok (dst', sI')
            ∧ dst'.unserializedData = (showcase_deriv_input x86_64).unserializedData)
        ∧ (∃ src' sO', OutputSerializer.serialize_SerializeableBase x86_64 "void"
              (ObjectRepr.unobserved _) (showcase_base_output x86_64) ⟨[]⟩ = .ok (src', sO')
            ∧ src'.serializedData = (showcase_base_output x86_64).serializedData
            ∧ src'.unserializedData = (showcase_base_output x86_64).unserializedData)
        ∧ (∃ src' sO', OutputSerializer.serialize_SerializeableDeriv x86_64
              (ObjectRepr.unobserved _) (showcase_deriv_output x86_64) ⟨[]⟩ = .ok (src', sO')
            ∧ src'.serializedData = (showcase_deriv_output x86_64).serializedData
            ∧ src'.unserializedData = (showcase_deriv_output x86_64).unserializedData
            ∧ src'.moreSerializedData = (showcase_deriv_output x86_64).moreSerializedData)) :=
  ⟨by decide, by decide, by decide, by decide, rfl, rfl,
    custom_decode_frame x86_64 "void" (ObjectRepr.unobserved _) (ObjectRepr.unobserved _)
      (showcase_base_output x86_64) (showcase_base_input x86_64)
      (showcase_deriv_output x86_64) (showcase_deriv_input x86_64)
      ⟨[]⟩ ⟨(showcase_base_output x86_64).serializedData.bytes, true⟩
      (by decide) (by decide) (by decide) (by decide)⟩

end cpputils
